import Mathlib

/-!
# Verification of `aces_ocio/create_aces_colorspaces.py`

A shallow embedding of the colorspace-generation module of the
OpenColorIO-Configs repository (ACES 1.0.0 configuration generator), together
with proofs and refutations of the specification's claims about it.

The module is Python 2 (`iteritems`, `xrange`).  The registries handed to
`create_lmts` / `create_odts` are Python dictionaries; both functions iterate
`sorted(info.iteritems(), key=lambda x: x[1])`, i.e. a stable sort of the
`(key, value)` pairs keyed on the *entire metadata dictionary* under Python 2's
dictionary ordering.  We therefore model:

* Python 2 values (`PyVal`) and Python 2's cross-type comparison
  (numbers sort below strings);
* Python 2 dictionary comparison: by size first, then by the smallest key at
  which the two dictionaries differ (on canonical key-sorted association
  lists this is a lexicographic walk, `pyDictCmp`);
* `sorted` as a stable sort (`List.insertionSort`, which is stable);
* the filesystem / external-renderer side effects as an explicit `World`
  state (set of existing paths plus the log of renderer invocations);
* Python runtime failures (`NameError`, `KeyError`, `UnboundLocalError`,
  `ValueError`) as `Except String`.
-/

/-- A Python 2 value occurring in a registry metadata dictionary:
a string or an integer. -/
inductive PyVal : Type
  | str (s : String)
  | int (n : Int)
deriving DecidableEq

/-- Three-way comparison from a linear order
(`compareOfLessAndEq`, spelled out so that it is easy to reason about). -/
def cmpv {α : Type _} [LinearOrder α] (a b : α) : Ordering :=
  if a < b then .lt else if a = b then .eq else .gt

theorem cmpv_of_lt {α : Type _} [LinearOrder α] {a b : α} (h : a < b) :
    cmpv a b = .lt := if_pos h

theorem cmpv_of_eq {α : Type _} [LinearOrder α] {a b : α} (h : a = b) :
    cmpv a b = .eq := by
  unfold cmpv
  rw [if_neg (by simp [h]), if_pos h]

theorem cmpv_of_gt {α : Type _} [LinearOrder α] {a b : α} (h : b < a) :
    cmpv a b = .gt := by
  unfold cmpv
  rw [if_neg (asymm h), if_neg (ne_of_gt h)]

theorem cmpv_lt_iff {α : Type _} [LinearOrder α] {a b : α} :
    cmpv a b = .lt ↔ a < b := by
  constructor
  · intro h
    rcases lt_trichotomy a b with h' | h' | h'
    · exact h'
    · rw [cmpv_of_eq h'] at h; cases h
    · rw [cmpv_of_gt h'] at h; cases h
  · exact cmpv_of_lt

theorem cmpv_eq_iff {α : Type _} [LinearOrder α] {a b : α} :
    cmpv a b = .eq ↔ a = b := by
  constructor
  · intro h
    rcases lt_trichotomy a b with h' | h' | h'
    · rw [cmpv_of_lt h'] at h; cases h
    · exact h'
    · rw [cmpv_of_gt h'] at h; cases h
  · exact cmpv_of_eq

theorem cmpv_swap {α : Type _} [LinearOrder α] (a b : α) :
    cmpv b a = (cmpv a b).swap := by
  rcases lt_trichotomy a b with h | h | h
  · rw [cmpv_of_lt h, cmpv_of_gt h]; rfl
  · rw [cmpv_of_eq h, cmpv_of_eq h.symm]; rfl
  · rw [cmpv_of_gt h, cmpv_of_lt h]; rfl

/-- Lexicographic walk over two lists with an element comparator. -/
def lexCmp {α : Type _} (c : α → α → Ordering) : List α → List α → Ordering
  | [], [] => .eq
  | [], _ :: _ => .lt
  | _ :: _, [] => .gt
  | x :: xs, y :: ys =>
    match c x y with
    | .eq => lexCmp c xs ys
    | o => o

theorem lexCmp_eq_iff {α : Type _} {c : α → α → Ordering}
    (hc : ∀ a b, c a b = .eq ↔ a = b) :
    ∀ {l₁ l₂ : List α}, lexCmp c l₁ l₂ = .eq ↔ l₁ = l₂ := by
  intro l₁
  induction l₁ with
  | nil => intro l₂; cases l₂ <;> simp [lexCmp]
  | cons x xs ih =>
    intro l₂
    cases l₂ with
    | nil => simp [lexCmp]
    | cons y ys =>
      show (match c x y with | .eq => lexCmp c xs ys | o => o) = .eq ↔ _
      rcases h : c x y with _ | _ | _
      · exact iff_of_false (fun hh => Ordering.noConfusion hh)
          (fun hEq => by
            rw [List.cons.injEq] at hEq
            rw [(hc x y).mpr hEq.1] at h
            cases h)
      · rw [ih, (hc x y).mp h, List.cons.injEq]
        simp
      · exact iff_of_false (fun hh => Ordering.noConfusion hh)
          (fun hEq => by
            rw [List.cons.injEq] at hEq
            rw [(hc x y).mpr hEq.1] at h
            cases h)

theorem lexCmp_swap {α : Type _} {c : α → α → Ordering}
    (hc : ∀ a b, c b a = (c a b).swap) :
    ∀ (l₁ l₂ : List α), lexCmp c l₂ l₁ = (lexCmp c l₁ l₂).swap := by
  intro l₁
  induction l₁ with
  | nil => intro l₂; cases l₂ <;> rfl
  | cons x xs ih =>
    intro l₂
    cases l₂ with
    | nil => rfl
    | cons y ys =>
      have hL : lexCmp c (y :: ys) (x :: xs)
          = (match c y x with | .eq => lexCmp c ys xs | o => o) := rfl
      have hR : lexCmp c (x :: xs) (y :: ys)
          = (match c x y with | .eq => lexCmp c xs ys | o => o) := rfl
      rw [hL, hR, hc x y]
      rcases h : c x y with _ | _ | _
      · rfl
      · exact ih ys
      · rfl

theorem lexCmp_lt_trans {α : Type _} {c : α → α → Ordering}
    (hceq : ∀ a b, c a b = .eq ↔ a = b)
    (hct : ∀ {a b d}, c a b = .lt → c b d = .lt → c a d = .lt) :
    ∀ {l₁ l₂ l₃ : List α}, lexCmp c l₁ l₂ = .lt → lexCmp c l₂ l₃ = .lt →
      lexCmp c l₁ l₃ = .lt := by
  intro l₁
  induction l₁ with
  | nil =>
    intro l₂ l₃ h12 h23
    cases l₂ with
    | nil => exact h23
    | cons y ys => cases l₃ with
      | nil => cases h23
      | cons z zs => rfl
  | cons x xs ih =>
    intro l₂ l₃ h12 h23
    cases l₂ with
    | nil => cases h12
    | cons y ys =>
      cases l₃ with
      | nil => cases h23
      | cons z zs =>
        show (match c x z with | .eq => lexCmp c xs zs | o => o) = .lt
        have h12' : (match c x y with | .eq => lexCmp c xs ys | o => o) = .lt := h12
        have h23' : (match c y z with | .eq => lexCmp c ys zs | o => o) = .lt := h23
        rcases hxy : c x y with _ | _ | _ <;> rw [hxy] at h12' <;>
          rcases hyz : c y z with _ | _ | _ <;> rw [hyz] at h23'
        · rw [hct hxy hyz]
        · obtain rfl := (hceq y z).mp hyz
          rw [hxy]
        · cases h23'
        · obtain rfl := (hceq x y).mp hxy
          rw [hyz]
        · obtain rfl := (hceq x y).mp hxy
          obtain rfl := (hceq x z).mp hyz
          rw [(hceq x x).mpr rfl]
          exact ih h12' h23'
        · cases h23'
        · cases h12'
        · cases h12'
        · cases h12'

/-- Python 2 string comparison: lexicographic on the character sequence
(kept at the level of character lists so that it evaluates). -/
def strCmp (s t : String) : Ordering :=
  lexCmp cmpv s.data t.data

theorem strCmp_eq_iff {s t : String} : strCmp s t = .eq ↔ s = t := by
  unfold strCmp
  rw [lexCmp_eq_iff (fun _ _ => cmpv_eq_iff)]
  constructor
  · intro h
    cases s; cases t
    exact congrArg String.mk h
  · intro h; rw [h]

theorem strCmp_swap (s t : String) : strCmp t s = (strCmp s t).swap :=
  lexCmp_swap cmpv_swap s.data t.data

theorem strCmp_lt_trans {a b c : String} :
    strCmp a b = .lt → strCmp b c = .lt → strCmp a c = .lt :=
  lexCmp_lt_trans (fun _ _ => cmpv_eq_iff)
    (fun h1 h2 => cmpv_lt_iff.mpr (lt_trans (cmpv_lt_iff.mp h1) (cmpv_lt_iff.mp h2)))

/-- Python 2 comparison of values: integers compare below strings,
otherwise the native order of the type. -/
def pyValCmp : PyVal → PyVal → Ordering
  | .int m, .int n => cmpv m n
  | .int _, .str _ => .lt
  | .str _, .int _ => .gt
  | .str s, .str t => strCmp s t

theorem pyValCmp_eq_iff {a b : PyVal} : pyValCmp a b = .eq ↔ a = b := by
  cases a <;> cases b <;> simp [pyValCmp, cmpv_eq_iff, strCmp_eq_iff]

theorem pyValCmp_swap (a b : PyVal) : pyValCmp b a = (pyValCmp a b).swap := by
  cases a <;> cases b
  · exact strCmp_swap _ _
  · rfl
  · rfl
  · exact cmpv_swap _ _

theorem pyValCmp_lt_trans {a b c : PyVal} :
    pyValCmp a b = .lt → pyValCmp b c = .lt → pyValCmp a c = .lt := by
  cases a <;> cases b <;> cases c <;>
    simp [pyValCmp, cmpv_lt_iff] <;>
    first
      | exact lt_trans
      | exact fun h1 h2 => strCmp_lt_trans h1 h2

/-- Comparison of one `(key, value)` item: key first, then value. -/
def pairCmp (a b : String × PyVal) : Ordering :=
  match strCmp a.1 b.1 with
  | .eq => pyValCmp a.2 b.2
  | o => o

theorem pairCmp_eq_iff {a b : String × PyVal} : pairCmp a b = .eq ↔ a = b := by
  unfold pairCmp
  rcases h : strCmp a.1 b.1 with _ | _ | _
  · refine iff_of_false (fun hh => Ordering.noConfusion hh) (fun hEq => ?_)
    rw [hEq, strCmp_eq_iff.mpr rfl] at h
    cases h
  · rw [show (a = b) ↔ (a.1 = b.1 ∧ a.2 = b.2) from Prod.ext_iff]
    simp [pyValCmp_eq_iff, strCmp_eq_iff.mp h]
  · refine iff_of_false (fun hh => Ordering.noConfusion hh) (fun hEq => ?_)
    rw [hEq, strCmp_eq_iff.mpr rfl] at h
    cases h

theorem pairCmp_swap (a b : String × PyVal) : pairCmp b a = (pairCmp a b).swap := by
  unfold pairCmp
  rw [strCmp_swap a.1 b.1]
  rcases strCmp a.1 b.1 with _ | _ | _
  · rfl
  · exact pyValCmp_swap _ _
  · rfl

theorem pairCmp_lt_trans {a b c : String × PyVal} :
    pairCmp a b = .lt → pairCmp b c = .lt → pairCmp a c = .lt := by
  unfold pairCmp
  rcases h1 : strCmp a.1 b.1 with _ | _ | _ <;>
    rcases h2 : strCmp b.1 c.1 with _ | _ | _ <;>
    intro hab hbc
  · rw [strCmp_lt_trans h1 h2]
  · rw [← strCmp_eq_iff.mp h2, h1]
  · cases hbc
  · rw [strCmp_eq_iff.mp h1, h2]
  · rw [strCmp_eq_iff.mp h1, h2]
    exact pyValCmp_lt_trans hab hbc
  · cases hbc
  · cases hab
  · cases hab
  · cases hab

/-- Python 2 dictionary comparison on canonical (key-sorted, duplicate-free)
association lists: a smaller dictionary sorts first; dictionaries of equal
size are compared at the smallest key where they differ, which on key-sorted
association lists is the lexicographic walk `lexCmp pairCmp`. -/
def pyDictCmp (a b : List (String × PyVal)) : Ordering :=
  if a.length < b.length then .lt
  else if b.length < a.length then .gt
  else lexCmp pairCmp a b

theorem pyDictCmp_eq_iff {a b : List (String × PyVal)} :
    pyDictCmp a b = .eq ↔ a = b := by
  unfold pyDictCmp
  split_ifs with h1 h2
  · exact iff_of_false (by decide)
      (fun hEq => by rw [hEq] at h1; exact lt_irrefl _ h1)
  · exact iff_of_false (by decide)
      (fun hEq => by rw [hEq] at h2; exact lt_irrefl _ h2)
  · exact lexCmp_eq_iff (fun _ _ => pairCmp_eq_iff)

theorem pyDictCmp_swap (a b : List (String × PyVal)) :
    pyDictCmp b a = (pyDictCmp a b).swap := by
  rcases lt_trichotomy a.length b.length with h | h | h
  · have hba : pyDictCmp b a = .gt := by
      unfold pyDictCmp; rw [if_neg (by omega), if_pos h]
    have hab : pyDictCmp a b = .lt := by
      unfold pyDictCmp; rw [if_pos h]
    rw [hba, hab]; rfl
  · have hba : pyDictCmp b a = lexCmp pairCmp b a := by
      unfold pyDictCmp; rw [if_neg (by omega), if_neg (by omega)]
    have hab : pyDictCmp a b = lexCmp pairCmp a b := by
      unfold pyDictCmp; rw [if_neg (by omega), if_neg (by omega)]
    rw [hba, hab]
    exact lexCmp_swap pairCmp_swap a b
  · have hba : pyDictCmp b a = .lt := by
      unfold pyDictCmp; rw [if_pos h]
    have hab : pyDictCmp a b = .gt := by
      unfold pyDictCmp; rw [if_neg (by omega), if_pos h]
    rw [hba, hab]; rfl

theorem pyDictCmp_le_trans {a b c : List (String × PyVal)} :
    pyDictCmp a b ≠ .gt → pyDictCmp b c ≠ .gt → pyDictCmp a c ≠ .gt := by
  intro h12 h23
  rcases hab : pyDictCmp a b with _ | _ | _
  · rcases hbc : pyDictCmp b c with _ | _ | _
    · have hlt : pyDictCmp a c = .lt := by
        unfold pyDictCmp at hab hbc ⊢
        by_cases h1 : a.length < b.length
        · by_cases h2 : b.length < c.length
          · rw [if_pos (by omega)]
          · rw [if_neg h2] at hbc
            by_cases h3 : c.length < b.length
            · rw [if_pos h3] at hbc; cases hbc
            · rw [if_pos (by omega)]
        · rw [if_neg h1] at hab
          by_cases h3 : b.length < a.length
          · rw [if_pos h3] at hab; cases hab
          · rw [if_neg h3] at hab
            by_cases h2 : b.length < c.length
            · rw [if_pos (by omega)]
            · rw [if_neg h2] at hbc
              by_cases h4 : c.length < b.length
              · rw [if_pos h4] at hbc; cases hbc
              · rw [if_neg h4] at hbc
                rw [if_neg (by omega), if_neg (by omega)]
                exact lexCmp_lt_trans (fun _ _ => pairCmp_eq_iff)
                  (fun hu hv => pairCmp_lt_trans hu hv) hab hbc
      rw [hlt]; intro hh; cases hh
    · obtain rfl := pyDictCmp_eq_iff.mp hbc
      rw [hab]; intro hh; cases hh
    · exact absurd hbc h23
  · obtain rfl := pyDictCmp_eq_iff.mp hab
    exact h23
  · exact absurd hab h12

/-- A registry metadata entry (the value of one key of `lmt_info` /
`odt_info`): the fields this module reads.  `transformUserName` is required
by the interface; the remaining fields may be absent from the dictionary. -/
structure XformMeta where
  transformUserName : String
  transformCTL : Option String
  transformCTLInverse : Option String
  transformLUT : Option String
  transformLUTInverse : Option String
  legalRange : Option Int
  transformUserNamePrefix : Option String
deriving DecidableEq

/-- One optional dictionary item. -/
def optItem (k : String) : Option PyVal → List (String × PyVal)
  | some v => [(k, v)]
  | none => []

/-- The Python dictionary carried by a metadata entry, as the canonical
association list sorted by key (`pyDictCmp` is order-insensitive, so any
fixed order is a faithful representation; key-sorted makes the smallest
differing key the first differing item). -/
def toDict (m : XformMeta) : List (String × PyVal) :=
  optItem "legalRange" (m.legalRange.map .int) ++
  optItem "transformCTL" (m.transformCTL.map .str) ++
  optItem "transformCTLInverse" (m.transformCTLInverse.map .str) ++
  optItem "transformLUT" (m.transformLUT.map .str) ++
  optItem "transformLUTInverse" (m.transformLUTInverse.map .str) ++
  [("transformUserName", .str m.transformUserName)] ++
  optItem "transformUserNamePrefix" (m.transformUserNamePrefix.map .str)

/-- Reads a string field back out of a dictionary. -/
def lookupStr (d : List (String × PyVal)) (k : String) : Option String :=
  match d.lookup k with
  | some (.str s) => some s
  | _ => none

/-- Reads an integer field back out of a dictionary. -/
def lookupInt (d : List (String × PyVal)) (k : String) : Option Int :=
  match d.lookup k with
  | some (.int n) => some n
  | _ => none

/-- Decodes a metadata dictionary (inverse of `toDict`). -/
def fromDict (d : List (String × PyVal)) : XformMeta where
  transformUserName := (lookupStr d "transformUserName").getD ""
  transformCTL := lookupStr d "transformCTL"
  transformCTLInverse := lookupStr d "transformCTLInverse"
  transformLUT := lookupStr d "transformLUT"
  transformLUTInverse := lookupStr d "transformLUTInverse"
  legalRange := lookupInt d "legalRange"
  transformUserNamePrefix := lookupStr d "transformUserNamePrefix"

theorem fromDict_toDict (m : XformMeta) : fromDict (toDict m) = m := by
  obtain ⟨un, ctl, ctli, lut, luti, lr, pre⟩ := m
  rcases ctl with _ | c1 <;> rcases ctli with _ | c2 <;> rcases lut with _ | c3 <;>
    rcases luti with _ | c4 <;> rcases lr with _ | c5 <;> rcases pre with _ | c6 <;>
    simp [toDict, fromDict, optItem, lookupStr, lookupInt, List.lookup]

theorem toDict_inj {m₁ m₂ : XformMeta} (h : toDict m₁ = toDict m₂) : m₁ = m₂ := by
  have := congrArg fromDict h
  rwa [fromDict_toDict, fromDict_toDict] at this

/-- Python 2 `<=` on metadata entries, used as the `sorted` comparator
induced by `key=lambda x: x[1]` on registry items. -/
def pyMetaLe (m₁ m₂ : XformMeta) : Prop :=
  pyDictCmp (toDict m₁) (toDict m₂) ≠ .gt

/-- The comparator `sorted(registry.iteritems(), key=lambda x: x[1])`
actually sorts by: the entry's metadata dictionary only. -/
def pyEntryLe (a b : String × XformMeta) : Prop := pyMetaLe a.2 b.2

instance : DecidableRel pyMetaLe := fun m₁ m₂ => by
  unfold pyMetaLe; infer_instance

instance : DecidableRel pyEntryLe := fun a b => by
  unfold pyEntryLe; infer_instance

theorem pyMetaLe_total (a b : XformMeta) : pyMetaLe a b ∨ pyMetaLe b a := by
  unfold pyMetaLe
  rcases h : pyDictCmp (toDict a) (toDict b) with _ | _ | _
  · left; intro hh; cases hh
  · left; intro hh; cases hh
  · right
    rw [pyDictCmp_swap, h]
    intro hh; cases hh

theorem pyMetaLe_trans {a b c : XformMeta} :
    pyMetaLe a b → pyMetaLe b c → pyMetaLe a c := pyDictCmp_le_trans

/-- Mutual `<=` means the two metadata dictionaries are equal, hence (the
dictionary encoding being injective) the metadata records are equal. -/
theorem pyMetaLe_antisymm {a b : XformMeta} :
    pyMetaLe a b → pyMetaLe b a → a = b := by
  intro h1 h2
  unfold pyMetaLe at h1 h2
  rw [pyDictCmp_swap] at h2
  rcases h : pyDictCmp (toDict a) (toDict b) with _ | _ | _
  · rw [h] at h2; exact absurd rfl h2
  · exact toDict_inj (pyDictCmp_eq_iff.mp h)
  · exact absurd h h1

instance : IsTotal (String × XformMeta) pyEntryLe := ⟨fun a b => pyMetaLe_total a.2 b.2⟩

instance : IsTrans (String × XformMeta) pyEntryLe :=
  ⟨fun _ _ _ h1 h2 => pyMetaLe_trans h1 h2⟩

instance : IsTotal XformMeta pyMetaLe := ⟨pyMetaLe_total⟩

instance : IsTrans XformMeta pyMetaLe := ⟨fun _ _ _ h1 h2 => pyMetaLe_trans h1 h2⟩

/-- Python's `sorted(registry.iteritems(), key=lambda x: x[1])`: a stable
sort of the `(identifier, metadata)` pairs comparing metadata dictionaries.
`List.insertionSort` is a stable sort, so it is a faithful model of
CPython's (stable) `sorted`. -/
def pySorted (l : List (String × XformMeta)) : List (String × XformMeta) :=
  List.insertionSort pyEntryLe l

/-- Two sorted lists that are permutations of each other and whose elements
are pairwise antisymmetric (no two distinct elements tie) are equal. -/
theorem sorted_perm_eq {α : Type _} {r : α → α → Prop} :
    ∀ {l₁ l₂ : List α}, l₁.Perm l₂ → l₁.Pairwise r → l₂.Pairwise r →
      (∀ a ∈ l₁, ∀ b ∈ l₁, r a b → r b a → a = b) → l₁ = l₂ := by
  intro l₁
  induction l₁ with
  | nil =>
    intro l₂ hp _ _ _
    exact (hp.symm.eq_nil).symm
  | cons a t₁ ih =>
    intro l₂ hp h₁ h₂ hanti
    cases l₂ with
    | nil => exact absurd hp.eq_nil (by simp)
    | cons b t₂ =>
      by_cases hab : a = b
      · subst hab
        have ht : t₁.Perm t₂ := hp.cons_inv
        have : t₁ = t₂ := by
          refine ih ht (List.pairwise_cons.mp h₁).2 (List.pairwise_cons.mp h₂).2 ?_
          intro x hx y hy hxy hyx
          exact hanti x (List.mem_cons_of_mem _ hx) y (List.mem_cons_of_mem _ hy) hxy hyx
        rw [this]
      · exfalso
        have haIn : a ∈ t₂ := by
          have : a ∈ b :: t₂ := hp.subset (List.mem_cons_self a t₁)
          rcases List.mem_cons.mp this with h | h
          · exact absurd h hab
          · exact h
        have hbIn : b ∈ t₁ := by
          have : b ∈ a :: t₁ := hp.symm.subset (List.mem_cons_self b t₂)
          rcases List.mem_cons.mp this with h | h
          · exact absurd h.symm hab
          · exact h
        have hrab : r a b := (List.pairwise_cons.mp h₁).1 b hbIn
        have hrba : r b a := (List.pairwise_cons.mp h₂).1 a haIn
        exact hab (hanti a (List.mem_cons_self a t₁) b (List.mem_cons_of_mem _ hbIn) hrab hrba)

/-- Registries that are equal as mappings (permutations of each other as
association lists) sort to pair lists whose metadata sequences agree:
the comparator is antisymmetric on metadata, so the sorted metadata
sequence is unique. -/
theorem pySorted_map_snd_eq_of_perm {l₁ l₂ : List (String × XformMeta)}
    (hp : l₁.Perm l₂) :
    (pySorted l₁).map Prod.snd = (pySorted l₂).map Prod.snd := by
  apply sorted_perm_eq (r := pyMetaLe)
  · exact ((List.perm_insertionSort pyEntryLe l₁).trans
      (hp.trans (List.perm_insertionSort pyEntryLe l₂).symm)).map Prod.snd
  · exact List.Pairwise.map Prod.snd (fun a b h => h)
      (List.sorted_insertionSort pyEntryLe l₁)
  · exact List.Pairwise.map Prod.snd (fun a b h => h)
      (List.sorted_insertionSort pyEntryLe l₂)
  · intro x _ y _ hxy hyx
    exact pyMetaLe_antisymm hxy hyx

/-- If additionally no two entries of the registry carry equal metadata,
the sorted `(identifier, metadata)` pair lists agree in full. -/
theorem pySorted_eq_of_perm {l₁ l₂ : List (String × XformMeta)}
    (hp : l₁.Perm l₂)
    (hd : ∀ a ∈ l₁, ∀ b ∈ l₁, a.2 = b.2 → a = b) :
    pySorted l₁ = pySorted l₂ := by
  apply sorted_perm_eq (r := pyEntryLe)
  · exact (List.perm_insertionSort pyEntryLe l₁).trans
      (hp.trans (List.perm_insertionSort pyEntryLe l₂).symm)
  · exact List.sorted_insertionSort pyEntryLe l₁
  · exact List.sorted_insertionSort pyEntryLe l₂
  · intro x hx y hy hxy hyx
    exact hd x ((List.perm_insertionSort pyEntryLe l₁).subset hx)
      y ((List.perm_insertionSort pyEntryLe l₁).subset hy)
      (pyMetaLe_antisymm hxy hyx)

/-- A rendering-hint parameter dictionary (e.g. the shaper parameters
`middleGrey` / `minExposure` / `maxExposure` / `legalRange`). -/
abbrev Params : Type := List (String × ℚ)

/-- Python dictionary item assignment `p[k] = v`: overwrite in place if the
key is present, otherwise add the binding. -/
def setParam (p : Params) (k : String) (v : ℚ) : Params :=
  if p.any (fun kv => kv.1 = k) then
    p.map (fun kv => if kv.1 = k then (k, v) else kv)
  else p ++ [(k, v)]

/-- Whether the parameter dictionary binds a key. -/
def hasParam (p : Params) (k : String) : Bool :=
  p.any (fun kv => kv.1 = k)

/-- One invocation of the external CTL renderer
(`generate_1d_LUT_from_CTL` / `generate_3d_LUT_from_CTL`): the exact
argument list handed to the collaborator. -/
structure RenderCall where
  dim : Nat
  path : String
  ctls : List String
  resolution : Int
  sampleType : String
  inputScale : ℚ
  outputScale : ℚ
  params : Params
  cleanup : Bool
  ctlDir : String
  minValue : Option ℚ
  maxValue : Option ℚ
deriving DecidableEq

/-- The observable effects of a generation run: the set of paths that exist
on disk (as a list) and the log of renderer invocations, in order. -/
structure World where
  fs : List String
  renders : List RenderCall
deriving DecidableEq

/-- Invoking the renderer: logs the call and creates the target file. -/
def render (c : RenderCall) (w : World) : World :=
  { fs := c.path :: w.fs, renders := w.renders ++ [c] }

/-- An in-process file write (`write_SPI_1d`): creates the target file
without invoking the renderer. -/
def writeFile (p : String) (w : World) : World :=
  { w with fs := p :: w.fs }

/-- `os.path.join` for the two-component joins this module performs. -/
def pathJoin (a b : String) : String := a ++ "/" ++ b

/-- Python `template % value` for the single-`%s` CTL path templates. -/
def formatPath (template value : String) : String :=
  template.replace "%s" value

/-- The path-sanitization and name-compaction helpers live in
`aces_ocio.utilities`, which the specification treats as external
collaborators; the development is parameterized over them. -/
structure Util where
  sanitize : String → String
  compact : String → String

/-- A trivial instantiation of the helpers (used to evaluate the embedding
at concrete inputs; every universally quantified theorem below holds for all
instantiations). -/
def utilId : Util := ⟨fun s => s, fun s => s⟩

/-- One step of a transform chain, as appended to
`to_reference_transforms` / `from_reference_transforms`. -/
inductive OCIOTransform : Type
  | lutFile (path interpolation direction : String)
  | matrix (m : List ℚ) (offset : Option (List ℚ)) (direction : String)
  | log (base : Int) (direction : String)
deriving DecidableEq

/-- The `ColorSpace` record of `aces_ocio.utilities`, restricted to the
fields this module assigns. -/
structure ColorSpace where
  name : String
  description : String
  aliases : List String
  equality_group : String
  family : String
  is_data : Bool
  bit_depth : Option String
  allocation_type : Option String
  allocation_vars : List ℚ
  to_reference_transforms : List OCIOTransform
  from_reference_transforms : List OCIOTransform
deriving DecidableEq

/-- The Shaper Bundle (`lmt_shaper_data` / `log2_shaper_data`): shaper name,
the two CTL path templates, the input scale, and the parameter dictionary.
In the source this is a Python list whose last element is a *reference* to
a shared parameter dictionary. -/
structure ShaperInfo where
  name : String
  toACES : String
  fromACES : String
  inputScale : ℚ
  params : Params
deriving DecidableEq

-- ---------------------------------------------------------------------
-- Matrix constants
-- ---------------------------------------------------------------------

/-- Matrix converting ACES AP1 primaries to AP0 (module-level constant). -/
def ACES_AP1_to_AP0 : List ℚ :=
  [0.6954522414, 0.1406786965, 0.1638690622,
   0.0447945634, 0.8596711185, 0.0955343182,
   -0.0055258826, 0.0040252103, 1.0015006723]

/-- Matrix converting ACES AP0 primaries to XYZ (module-level constant). -/
def ACES_AP0_to_XYZ : List ℚ :=
  [0.9525523959, 0.0000000000, 0.0000936786,
   0.3439664498, 0.7281660966, -0.0721325464,
   0.0000000000, 0.0000000000, 1.0088251844]

/-- Modelled from the spec: `mat44_from_mat33` of `aces_ocio.utilities`
(not part of the sources under review) widens a 3x3 matrix to 4x4
("matrix variant: 4x4 (or 3x3 widened) coefficient matrix"). -/
def mat44_from_mat33 (m : List ℚ) : List ℚ :=
  match m with
  | [a, b, c, d, e, f, g, h, i] =>
      [a, b, c, 0, d, e, f, 0, g, h, i, 0, 0, 0, 0, 1]
  | _ => []

-- ---------------------------------------------------------------------
-- The ADX CID-to-RLE numeric kernel (`create_CID_to_RLE_LUT` internals)
-- ---------------------------------------------------------------------

/-- The fixed 11-point abscissa table of the CID-to-RLE piecewise fit. -/
def LUT_1D_xp : List ℚ :=
  [-0.190000000000000,
   0.010000000000000,
   0.028000000000000,
   0.054000000000000,
   0.095000000000000,
   0.145000000000000,
   0.220000000000000,
   0.300000000000000,
   0.400000000000000,
   0.500000000000000,
   0.600000000000000]

/-- The fixed 11-point ordinate table of the CID-to-RLE piecewise fit. -/
def LUT_1D_fp : List ℚ :=
  [-6.000000000000000,
   -2.721718645000000,
   -2.521718645000000,
   -2.321718645000000,
   -2.121718645000000,
   -1.921718645000000,
   -1.721718645000000,
   -1.521718645000000,
   -1.321718645000000,
   -1.121718645000000,
   -0.926545676714876]

/-- `numpy.interp` over a list of sample points: clamps below the first
abscissa and above the last, linear in between. -/
def interpPoints (x : ℚ) : List (ℚ × ℚ) → ℚ
  | [] => 0
  | [(_, f0)] => f0
  | (x0, f0) :: (x1, f1) :: rest =>
    if x ≤ x0 then f0
    else if x ≤ x1 then f0 + (x - x0) * (f1 - f0) / (x1 - x0)
    else interpPoints x ((x1, f1) :: rest)

/-- `interpolate_1D(x, LUT_1D_xp, LUT_1D_fp)` — `numpy.interp` against the
fixed 11-point table. -/
def interpolate_1D (x : ℚ) : ℚ :=
  interpPoints x (LUT_1D_xp.zip LUT_1D_fp)

/-- `REF_PT = (7120 - 1520) / 8000 * (100 / 55) - math.log(0.18, 10)`. -/
noncomputable def REF_PT : ℝ :=
  (7120 - 1520) / 8000 * (100 / 55) - Real.logb 10 0.18

/-- `cid_to_rle`: the interpolated branch for `x <= 0.6`, the closed-form
affine extension for `x > 0.6`.  The branch test is on the (exact, rational)
input; only the affine branch involves the irrational `REF_PT`. -/
noncomputable def cid_to_rle (x : ℚ) : ℝ :=
  if x ≤ 0.6 then ((interpolate_1D x : ℚ) : ℝ)
  else (100 / 55) * (x : ℝ) - REF_PT

/-- `fit(value, from_min, from_max, to_min, to_max)`: raises `ValueError`
exactly when `from_min == from_max`; performs no check on the target
interval. -/
def fit (value from_min from_max to_min to_max : ℚ) : Except String ℚ :=
  if from_min = from_max then .error "ValueError: from_min == from_max"
  else .ok ((value - from_min) / (from_max - from_min) * (to_max - to_min) + to_min)

-- ---------------------------------------------------------------------
-- Builders
-- ---------------------------------------------------------------------

/-- `create_ACEScc`: renders the 1D transfer-function table
*unconditionally* (no existence check on the target path) and assembles the
ACEScc colorspace. -/
def create_ACEScc (u : Util) (aces_CTL_directory lut_directory : String)
    (lut_resolution_1d : Int) (cleanup : Bool) (name : String)
    (min_value max_value input_scale : ℚ) (w : World) : ColorSpace × World :=
  let ctls := [pathJoin (pathJoin aces_CTL_directory "ACEScc")
                 "ACEScsc.ACEScc_to_ACES.a1.0.0.ctl",
               pathJoin (pathJoin aces_CTL_directory "ACEScg")
                 "ACEScsc.ACES_to_ACEScg.a1.0.0.ctl"]
  let lut := u.sanitize (name ++ "_to_ACES.spi1d")
  let w := render
    { dim := 1, path := pathJoin lut_directory lut, ctls := ctls,
      resolution := lut_resolution_1d, sampleType := "float",
      inputScale := input_scale, outputScale := 1, params := [],
      cleanup := cleanup, ctlDir := aces_CTL_directory,
      minValue := some min_value, maxValue := some max_value } w
  ({ name := name,
     description := "The " ++ name ++ " color space",
     aliases := ["acescc_ap1"],
     equality_group := "",
     family := "ACES",
     is_data := false,
     bit_depth := none,
     allocation_type := none,
     allocation_vars := [],
     to_reference_transforms :=
       [.lutFile lut "linear" "forward",
        .matrix (mat44_from_mat33 ACES_AP1_to_AP0) none "forward"],
     from_reference_transforms := [] }, w)

/-- `create_generic_log`: renders the parameterized log-shaper 1D table
(unconditionally) and assembles a single-step colorspace. -/
def create_generic_log (u : Util) (aces_CTL_directory lut_directory : String)
    (lut_resolution_1d : Int) (cleanup : Bool) (name : String)
    (aliases : List String) (min_value max_value input_scale : ℚ)
    (middle_grey min_exposure max_exposure : ℚ) (w : World) :
    ColorSpace × World :=
  let ctls := [pathJoin (pathJoin aces_CTL_directory "utilities")
                 "ACESlib.OCIO_shaper_log2_to_lin_param.a1.0.0.ctl"]
  let lut := u.sanitize (name ++ "_to_aces.spi1d")
  let w := render
    { dim := 1, path := pathJoin lut_directory lut, ctls := ctls,
      resolution := lut_resolution_1d, sampleType := "float",
      inputScale := input_scale, outputScale := 1,
      params := [("middleGrey", middle_grey), ("minExposure", min_exposure),
                 ("maxExposure", max_exposure)],
      cleanup := cleanup, ctlDir := aces_CTL_directory,
      minValue := some min_value, maxValue := some max_value } w
  ({ name := name,
     description := "The " ++ name ++ " color space",
     aliases := aliases,
     equality_group := name,
     family := "Utility",
     is_data := false,
     bit_depth := none,
     allocation_type := none,
     allocation_vars := [],
     to_reference_transforms := [.lutFile lut "linear" "forward"],
     from_reference_transforms := [] }, w)

/-- `create_ADX`: assigns the CDD matrix/offset only for bit depths 10 and
16; any other bit depth reaches a use of the never-assigned locals
`adx_to_cdd` / `offset` (an `UnboundLocalError`) before any file is
written.  For the supported depths it writes the in-process CID-to-RLE
1D table (4096 samples over [-0.19, 3]) and assembles the chain. -/
def create_ADX (lut_directory : String) (lut_resolution_1d : Int)
    (bit_depth : Int) (name : String) (w : World) :
    Except String (ColorSpace × World) :=
  let name := name ++ toString bit_depth
  let locals? : Option (String × List ℚ × List ℚ) :=
    if bit_depth = 10 then
      some ("uint10",
        [1023 / 500, 0, 0, 0,
         0, 1023 / 500, 0, 0,
         0, 0, 1023 / 500, 0,
         0, 0, 0, 1],
        [-95 / 500, -95 / 500, -95 / 500, 0])
    else if bit_depth = 16 then
      some ("uint16",
        [65535 / 8000, 0, 0, 0,
         0, 65535 / 8000, 0, 0,
         0, 0, 65535 / 8000, 0,
         0, 0, 0, 1],
        [-1520 / 8000, -1520 / 8000, -1520 / 8000, 0])
    else none
  match locals? with
  | none =>
    .error "UnboundLocalError: local variable adx_to_cdd referenced before assignment"
  | some (bd, adx_to_cdd, offset) =>
    let w := writeFile (pathJoin lut_directory "ADX_CID_to_RLE.spi1d") w
    .ok ({ name := name,
           description := name ++ " color space - used for film scans",
           aliases := ["adx" ++ toString bit_depth],
           equality_group := "",
           family := "ADX",
           is_data := false,
           bit_depth := some bd,
           allocation_type := none,
           allocation_vars := [],
           to_reference_transforms :=
             [.matrix adx_to_cdd (some offset) "forward",
              .matrix [0.75573, 0.22197, 0.02230, 0,
                       0.05901, 0.96928, -0.02829, 0,
                       0.16134, 0.07406, 0.76460, 0,
                       0, 0, 0, 1] none "forward",
              .lutFile "ADX_CID_to_RLE.spi1d" "linear" "forward",
              .log 10 "inverse",
              .matrix [0.72286, 0.12630, 0.15084, 0,
                       0.11923, 0.76418, 0.11659, 0,
                       0.01427, 0.08213, 0.90359, 0,
                       0, 0, 0, 1] none "forward"],
           from_reference_transforms := [] }, w)

/-- The shaper-reuse step shared by `create_ACES_LMT` and
`create_ACES_RRT_plus_ODT`: render the shaper 1D table only if the
(unsanitized) target path does not already exist; note that the path kept
in the transform is sanitized only on the render path, exactly as in the
source (`shaper_lut = sanitize_path(shaper_lut)` sits inside the
`if not os.path.exists(...)` block). -/
def shaperStep (u : Util) (info : ShaperInfo) (aces_CTL_directory
    lut_directory : String) (lut_resolution_1d : Int) (cleanup : Bool)
    (params : Params) (w : World) : String × World :=
  let shaper_lut := info.name ++ "_to_aces.spi1d"
  if pathJoin lut_directory shaper_lut ∈ w.fs then (shaper_lut, w)
  else
    let shaper_lut := u.sanitize shaper_lut
    (shaper_lut, render
      { dim := 1, path := pathJoin lut_directory shaper_lut,
        ctls := [formatPath info.toACES aces_CTL_directory],
        resolution := lut_resolution_1d, sampleType := "float",
        inputScale := 1 / info.inputScale, outputScale := 1,
        params := params, cleanup := cleanup,
        ctlDir := aces_CTL_directory, minValue := none, maxValue := none } w)

/-- `create_ACES_LMT`: builds the forward chain
`[shaper-inverse 1D, forward tetrahedral 3D]` from the entry's own
`transformCTL`; the inverse branch, guarded by
`'transformCTLInverse' in lmt_values`, then reads `odt_values` and
`odt_name` — names that do not exist in this function's scope (nor as
globals), so entering it raises `NameError`. -/
def create_ACES_LMT (u : Util) (lmt_name : String) (lmt_values : XformMeta)
    (shaper_info : ShaperInfo) (aces_CTL_directory lut_directory : String)
    (lut_resolution_1d lut_resolution_3d : Int) (cleanup : Bool)
    (aliases : List String) (w : World) : Except String (ColorSpace × World) :=
  let (shaper_lut, w) := shaperStep u shaper_info aces_CTL_directory
    lut_directory lut_resolution_1d cleanup shaper_info.params w
  let shaper_OCIO_transform := OCIOTransform.lutFile shaper_lut "linear" "inverse"
  let (from_reference_transforms, w) :=
    match lmt_values.transformCTL with
    | some ctl =>
      let lut := u.sanitize (shaper_info.name ++ "." ++ lmt_name ++ ".spi3d")
      let w := render
        { dim := 3, path := pathJoin lut_directory lut,
          ctls := [formatPath shaper_info.toACES aces_CTL_directory,
                   pathJoin aces_CTL_directory ctl],
          resolution := lut_resolution_3d, sampleType := "float",
          inputScale := 1 / shaper_info.inputScale, outputScale := 1,
          params := shaper_info.params, cleanup := cleanup,
          ctlDir := aces_CTL_directory, minValue := none, maxValue := none } w
      ([shaper_OCIO_transform, .lutFile lut "tetrahedral" "forward"], w)
    | none => ([], w)
  match lmt_values.transformCTLInverse with
  | some _ => .error "NameError: global name odt_values is not defined"
  | none =>
    .ok ({ name := lmt_name,
           description := "The ACES Look Transform: " ++ lmt_name,
           aliases := aliases,
           equality_group := "",
           family := "Look",
           is_data := false,
           bit_depth := none,
           allocation_type := none,
           allocation_vars := [],
           to_reference_transforms := [],
           from_reference_transforms := from_reference_transforms }, w)

/-- The loop body of `create_lmts`, iterated over the sorted metadata
sequence (the registry key is destructured but never used). -/
def lmtLoop (u : Util) (aces_CTL_directory lut_directory : String)
    (lut_resolution_1d lut_resolution_3d : Int) (cleanup : Bool)
    (info : ShaperInfo) :
    List XformMeta → List ColorSpace × World →
      Except String (List ColorSpace × World)
  | [], st => .ok st
  | m :: rest, (colorspaces, w) =>
    match create_ACES_LMT u m.transformUserName m info aces_CTL_directory
      lut_directory lut_resolution_1d lut_resolution_3d cleanup
      ["look_" ++ u.compact m.transformUserName] w with
    | .error e => .error e
    | .ok (cs, w) =>
      lmtLoop u aces_CTL_directory lut_directory lut_resolution_1d
        lut_resolution_3d cleanup info rest (colorspaces ++ [cs], w)

/-- The LMT shaper bundle built inside `create_lmts`. -/
def lmt_shaper_data : ShaperInfo :=
  { name := "LMT Shaper",
    toACES := "%s/utilities/ACESlib.OCIO_shaper_log2_to_lin_param.a1.0.0.ctl",
    fromACES := "%s/utilities/ACESlib.OCIO_shaper_lin_to_log2_param.a1.0.0.ctl",
    inputScale := 1,
    params := [("middleGrey", 0.18), ("minExposure", -10), ("maxExposure", 6.5)] }

/-- `create_lmts`: builds the `LMT Shaper` colorspace, then iterates the
look registry as `sorted(lmt_info.iteritems(), key=lambda x: x[1])` — a
stable sort on the *metadata dictionary* — building one look colorspace per
entry, named by the entry's `transformUserName`. -/
def create_lmts (u : Util) (aces_CTL_directory lut_directory : String)
    (lut_resolution_1d lut_resolution_3d : Int)
    (lmt_info : List (String × XformMeta)) (cleanup : Bool) (w : World) :
    Except String (List ColorSpace × World) :=
  let lmt_lut_resolution_1d := max 4096 lut_resolution_1d
  let lmt_lut_resolution_3d := max 65 lut_resolution_3d
  let (lmt_shaper, w) := create_generic_log u aces_CTL_directory lut_directory
    lmt_lut_resolution_1d cleanup "LMT Shaper" ["crv_lmtshaper"]
    0 1 1 0.18 (-10) 6.5 w
  let sorted_LMTs := pySorted lmt_info
  lmtLoop u aces_CTL_directory lut_directory lmt_lut_resolution_1d
    lmt_lut_resolution_3d cleanup lmt_shaper_data
    (sorted_LMTs.map Prod.snd) ([lmt_shaper], w)

/-- The fixed allowlist of output-transform identifiers that generate both
a legal-range and a full-range variant. -/
def dualRangeODTs : List String :=
  ["Academy.Rec2020_100nits_dim.a1.0.0",
   "Academy.Rec709_100nits_dim.a1.0.0",
   "Academy.Rec709_D60sim_100nits_dim.a1.0.0"]

/-- `create_ACES_RRT_plus_ODT`.  Faithful points: the description reads
`odt_values['transformUserNamePrefix']` (a `KeyError` when absent); the
call *assigns into the shared shaper parameter dictionary*
(`shaper_params['legalRange'] = ...`), so the updated dictionary is
returned alongside the colorspace; the `transformLUT` /
`transformLUTInverse` branches call `shutil.copy`, but this module never
imports `shutil`, so entering either branch raises `NameError`. -/
def create_ACES_RRT_plus_ODT (u : Util) (odt_name : String)
    (odt_values : XformMeta) (shaper_info : ShaperInfo)
    (aces_CTL_directory lut_directory : String)
    (lut_resolution_1d lut_resolution_3d : Int) (cleanup : Bool)
    (aliases : List String) (w : World) :
    Except String (ColorSpace × Params × World) :=
  match odt_values.transformUserNamePrefix with
  | none => .error "KeyError: transformUserNamePrefix"
  | some pre =>
    let shaper_params := setParam shaper_info.params "legalRange"
      (((odt_values.legalRange).getD 0 : Int) : ℚ)
    let (shaper_lut, w) := shaperStep u shaper_info aces_CTL_directory
      lut_directory lut_resolution_1d cleanup shaper_params w
    let shaper_OCIO_transform := OCIOTransform.lutFile shaper_lut "linear" "inverse"
    match odt_values.transformLUT with
    | some _ => .error "NameError: global name shutil is not defined"
    | none =>
      let (from_reference_transforms, w) :=
        match odt_values.transformCTL with
        | some ctl =>
          let lut := u.sanitize (shaper_info.name ++ ".RRT.a1.0.0." ++
            odt_name ++ ".spi3d")
          let w := render
            { dim := 3, path := pathJoin lut_directory lut,
              ctls := [formatPath shaper_info.toACES aces_CTL_directory,
                       pathJoin (pathJoin aces_CTL_directory "rrt")
                         "RRT.a1.0.0.ctl",
                       pathJoin (pathJoin aces_CTL_directory "odt") ctl],
              resolution := lut_resolution_3d, sampleType := "float",
              inputScale := 1 / shaper_info.inputScale, outputScale := 1,
              params := shaper_params, cleanup := cleanup,
              ctlDir := aces_CTL_directory, minValue := none, maxValue := none } w
          ([shaper_OCIO_transform, .lutFile lut "tetrahedral" "forward"], w)
        | none => ([], w)
      match odt_values.transformLUTInverse with
      | some _ => .error "NameError: global name shutil is not defined"
      | none =>
        let (to_reference_transforms, w) :=
          match odt_values.transformCTLInverse with
          | some ctli =>
            let lut := u.sanitize ("InvRRT.a1.0.0." ++ odt_name ++ "." ++
              shaper_info.name ++ ".spi3d")
            let w := render
              { dim := 3, path := pathJoin lut_directory lut,
                ctls := [pathJoin (pathJoin aces_CTL_directory "odt") ctli,
                         pathJoin (pathJoin aces_CTL_directory "rrt")
                           "InvRRT.a1.0.0.ctl",
                         formatPath shaper_info.fromACES aces_CTL_directory],
                resolution := lut_resolution_3d, sampleType := "half",
                inputScale := 1, outputScale := shaper_info.inputScale,
                params := shaper_params, cleanup := cleanup,
                ctlDir := aces_CTL_directory, minValue := none,
                maxValue := none } w
            ([.lutFile lut "tetrahedral" "forward",
              .lutFile shaper_lut "linear" "forward"], w)
          | none => ([], w)
        .ok ({ name := odt_name,
               description := pre ++ " - " ++ odt_name ++ " Output Transform",
               aliases := aliases,
               equality_group := "",
               family := "Output",
               is_data := false,
               bit_depth := none,
               allocation_type := none,
               allocation_vars := [],
               to_reference_transforms := to_reference_transforms,
               from_reference_transforms := from_reference_transforms },
             shaper_params, w)

/-- One display-grouping entry: the fixed triple of views. -/
structure DisplayViews where
  linearView : ColorSpace
  logView : ColorSpace
  outputView : ColorSpace
deriving DecidableEq

/-- The running state of the `create_odts` entry loop: the accumulated
colorspaces, the display-grouping entries (in insertion order), the shaper
bundle (whose parameter dictionary the builder calls mutate in place), and
the world. -/
structure OdtState where
  colorspaces : List ColorSpace
  displays : List (String × DisplayViews)
  shaper : ShaperInfo
  world : World
deriving DecidableEq

/-- The dual-range path of one `create_odts` loop iteration (taken for
identifiers in the fixed allowlist): builds the `" - Legal"` variant with
`legalRange = 1` injected into a copy of the entry metadata, registers it,
then builds the `" - Full"` variant with `legalRange = 0`.  The shared
shaper parameter dictionary travels through the state because each builder
call reassigns its `legalRange` binding. -/
def odtStepDual (u : Util) (aces_CTL_directory lut_directory : String)
    (lut_resolution_1d lut_resolution_3d : Int) (cleanup : Bool)
    (linear_display_space log_display_space : ColorSpace)
    (odt_values : XformMeta) (st : OdtState) : Except String OdtState :=
  let odt_name_legal := odt_values.transformUserName ++ " - Legal"
  let odt_legal := { odt_values with legalRange := some 1 }
  match create_ACES_RRT_plus_ODT u odt_name_legal odt_legal st.shaper
    aces_CTL_directory lut_directory lut_resolution_1d lut_resolution_3d
    cleanup ["out_" ++ u.compact odt_name_legal] st.world with
  | .error e => .error e
  | .ok (cs, params, w) =>
    let st1 : OdtState :=
      { colorspaces := st.colorspaces ++ [cs],
        displays := st.displays ++ [(odt_name_legal,
          { linearView := linear_display_space, logView := log_display_space,
            outputView := cs })],
        shaper := { st.shaper with params := params },
        world := w }
    let odt_name_full := odt_values.transformUserName ++ " - Full"
    let odt_full := { odt_values with legalRange := some 0 }
    match create_ACES_RRT_plus_ODT u odt_name_full odt_full st1.shaper
      aces_CTL_directory lut_directory lut_resolution_1d lut_resolution_3d
      cleanup ["out_" ++ u.compact odt_name_full] st1.world with
    | .error e => .error e
    | .ok (csF, paramsF, wF) =>
      .ok { colorspaces := st1.colorspaces ++ [csF],
            displays := st1.displays ++ [(odt_name_full,
              { linearView := linear_display_space,
                logView := log_display_space, outputView := csF })],
            shaper := { st1.shaper with params := paramsF },
            world := wF }

/-- The single-variant path of one `create_odts` loop iteration (taken for
identifiers outside the allowlist): one unsuffixed colorspace, still with
`legalRange = 1` injected into the metadata copy. -/
def odtStepSingle (u : Util) (aces_CTL_directory lut_directory : String)
    (lut_resolution_1d lut_resolution_3d : Int) (cleanup : Bool)
    (linear_display_space log_display_space : ColorSpace)
    (odt_values : XformMeta) (st : OdtState) : Except String OdtState :=
  let odt_name_legal := odt_values.transformUserName
  let odt_legal := { odt_values with legalRange := some 1 }
  match create_ACES_RRT_plus_ODT u odt_name_legal odt_legal st.shaper
    aces_CTL_directory lut_directory lut_resolution_1d lut_resolution_3d
    cleanup ["out_" ++ u.compact odt_name_legal] st.world with
  | .error e => .error e
  | .ok (cs, params, w) =>
    .ok { colorspaces := st.colorspaces ++ [cs],
          displays := st.displays ++ [(odt_name_legal,
            { linearView := linear_display_space,
              logView := log_display_space, outputView := cs })],
          shaper := { st.shaper with params := params },
          world := w }

/-- One iteration of the `create_odts` loop over a sorted registry entry
`(odt_name, odt_values)`: the allowlist decides between the dual-range and
the single-variant path (the source computes the suffixed name and the
full-range variant under two identical membership tests; they are hoisted
into this single test). -/
def odtStep (u : Util) (aces_CTL_directory lut_directory : String)
    (lut_resolution_1d lut_resolution_3d : Int) (cleanup : Bool)
    (linear_display_space log_display_space : ColorSpace)
    (entry : String × XformMeta) (st : OdtState) : Except String OdtState :=
  if entry.1 ∈ dualRangeODTs then
    odtStepDual u aces_CTL_directory lut_directory lut_resolution_1d
      lut_resolution_3d cleanup linear_display_space log_display_space
      entry.2 st
  else
    odtStepSingle u aces_CTL_directory lut_directory lut_resolution_1d
      lut_resolution_3d cleanup linear_display_space log_display_space
      entry.2 st

/-- The `create_odts` loop over the sorted registry. -/
def odtLoop (u : Util) (aces_CTL_directory lut_directory : String)
    (lut_resolution_1d lut_resolution_3d : Int) (cleanup : Bool)
    (linear_display_space log_display_space : ColorSpace) :
    List (String × XformMeta) → OdtState → Except String OdtState
  | [], st => .ok st
  | e :: rest, st =>
    match odtStep u aces_CTL_directory lut_directory lut_resolution_1d
      lut_resolution_3d cleanup linear_display_space log_display_space e st with
    | .error err => .error err
    | .ok st' =>
      odtLoop u aces_CTL_directory lut_directory lut_resolution_1d
        lut_resolution_3d cleanup linear_display_space log_display_space
        rest st'

/-- The ODT shaper bundle (`log2_shaper_data`) built inside `create_odts`;
its parameter dictionary is the `log2_params` dictionary shared (by
reference) with every `create_ACES_RRT_plus_ODT` call. -/
def log2_shaper_data (shaper_name : String) : ShaperInfo :=
  { name := shaper_name,
    toACES := "%s/utilities/ACESlib.OCIO_shaper_log2_to_lin_param.a1.0.0.ctl",
    fromACES := "%s/utilities/ACESlib.OCIO_shaper_lin_to_log2_param.a1.0.0.ctl",
    inputScale := 1,
    params := [("middleGrey", 0.18), ("minExposure", -6), ("maxExposure", 6.5)] }

/-- `create_odts`: builds the log2 shaper and its AP1 variant (the generic
log builder is invoked twice, rendering the same shaper table twice), then
iterates the output registry as
`sorted(odt_info.iteritems(), key=lambda x: x[1])` — a stable sort on the
metadata dictionary — threading the shared shaper bundle through the
per-entry step. -/
def create_odts (u : Util) (aces_CTL_directory lut_directory : String)
    (lut_resolution_1d lut_resolution_3d : Int)
    (odt_info : List (String × XformMeta)) (shaper_name : String)
    (cleanup : Bool) (linear_display_space log_display_space : ColorSpace)
    (w : World) : Except String OdtState :=
  let (log2_shaper, w) := create_generic_log u aces_CTL_directory
    lut_directory lut_resolution_1d cleanup shaper_name
    ["crv_" ++ u.compact shaper_name] 0 1 1 0.18 (-6) 6.5 w
  let (log2_shaper_AP1, w) := create_generic_log u aces_CTL_directory
    lut_directory lut_resolution_1d cleanup shaper_name
    [u.compact shaper_name ++ "_ap1"] 0 1 1 0.18 (-6) 6.5 w
  let log2_shaper_AP1 :=
    { log2_shaper_AP1 with
        name := log2_shaper_AP1.name ++ " - AP1",
        to_reference_transforms := log2_shaper_AP1.to_reference_transforms ++
          [.matrix (mat44_from_mat33 ACES_AP1_to_AP0) none "forward"] }
  let rrt_shaper := log2_shaper_data shaper_name
  let sorted_odts := pySorted odt_info
  odtLoop u aces_CTL_directory lut_directory lut_resolution_1d
    lut_resolution_3d cleanup linear_display_space log_display_space
    sorted_odts
    { colorspaces := [log2_shaper, log2_shaper_AP1],
      displays := [],
      shaper := rrt_shaper,
      world := w }

-- ---------------------------------------------------------------------
-- Claims
-- ---------------------------------------------------------------------

/-- C5: in the ADX builder's CID-to-RLE piecewise function, an input exactly
equal to 0.6 is evaluated by the interpolated (11-point piecewise-linear)
branch — the branch condition is `x <= 0.6` — and only inputs strictly
greater than 0.6 are evaluated by the closed-form affine extension. -/
theorem cid_to_rle_boundary_uses_interpolation :
    (∀ x : ℚ, x ≤ 0.6 → cid_to_rle x = ((interpolate_1D x : ℚ) : ℝ)) ∧
    (∀ x : ℚ, 0.6 < x → cid_to_rle x = (100 / 55) * (x : ℝ) - REF_PT) ∧
    cid_to_rle 0.6 = ((interpolate_1D 0.6 : ℚ) : ℝ) :=
  ⟨fun _ hx => if_pos hx, fun _ hx => if_neg (not_le.mpr hx), if_pos le_rfl⟩

theorem cid_to_rle_boundary_uses_interpolation_witness :
    cid_to_rle 0.6 = ((interpolate_1D 0.6 : ℚ) : ℝ) ∧
    cid_to_rle 0.7 = (100 / 55) * ((0.7 : ℚ) : ℝ) - REF_PT :=
  ⟨cid_to_rle_boundary_uses_interpolation.1 0.6 le_rfl,
   cid_to_rle_boundary_uses_interpolation.2.1 0.7 (by norm_num)⟩

/-- C7 counterexample: a degenerate *target* interval does not raise —
`fit(1/2, 0, 1, 2, 2)` returns 2 rather than an error, refuting the claim
that the fit helper raises when `to_min` equals `to_max`. -/
theorem fit_target_degenerate_returns : fit (1/2) 0 1 2 2 = .ok 2 := by
  simp only [fit]
  norm_num

/-- C7 (amended): the fit helper raises a fatal `ValueError` exactly when
the *source* interval is degenerate (`from_min = from_max`); for every
non-degenerate source interval it returns the affine remapping
`(value - from_min) / (from_max - from_min) * (to_max - to_min) + to_min`
without error, even when the target interval is degenerate. -/
theorem fit_error_iff_source_degenerate
    (value from_min from_max to_min to_max : ℚ) :
    (fit value from_min from_max to_min to_max
        = .error "ValueError: from_min == from_max" ↔ from_min = from_max) ∧
    (from_min ≠ from_max →
      fit value from_min from_max to_min to_max
        = .ok ((value - from_min) / (from_max - from_min)
            * (to_max - to_min) + to_min)) := by
  unfold fit
  constructor
  · split_ifs with h
    · simp [h]
    · simp [h]
  · intro h
    rw [if_neg h]

theorem fit_error_iff_source_degenerate_witness :
    fit 1 0 0 3 5 = .error "ValueError: from_min == from_max" ∧
    fit 1 0 2 3 5 = .ok 4 := by
  refine ⟨(fit_error_iff_source_degenerate 1 0 0 3 5).1.mpr rfl, ?_⟩
  rw [(fit_error_iff_source_degenerate 1 0 2 3 5).2 (by norm_num)]
  norm_num

/-- C10: `create_ADX` is total exactly for bit depths 10 and 16: under that
precondition the CDD matrix/offset locals are assigned and the builder
returns a colorspace; for any other bit depth the code path reaches a use
of the never-assigned locals `adx_to_cdd` / `offset` and fails with an
`UnboundLocalError` before producing a colorspace. -/
theorem create_ADX_bit_depth_totality (lut_directory : String)
    (lut_resolution_1d bit_depth : Int) (name : String) (w : World) :
    (bit_depth = 10 ∨ bit_depth = 16 →
      ∃ cs w', create_ADX lut_directory lut_resolution_1d bit_depth name w
        = .ok (cs, w')) ∧
    (bit_depth ≠ 10 → bit_depth ≠ 16 →
      create_ADX lut_directory lut_resolution_1d bit_depth name w
        = .error "UnboundLocalError: local variable adx_to_cdd referenced before assignment") := by
  constructor
  · rintro (rfl | rfl)
    · exact ⟨_, _, rfl⟩
    · exact ⟨_, _, rfl⟩
  · intro h10 h16
    unfold create_ADX
    rw [if_neg h10, if_neg h16]

theorem create_ADX_bit_depth_totality_witness :
    (∃ cs w', create_ADX "lut" 4096 10 "ADX" ⟨[], []⟩ = .ok (cs, w')) ∧
    create_ADX "lut" 4096 12 "ADX" ⟨[], []⟩
      = .error "UnboundLocalError: local variable adx_to_cdd referenced before assignment" :=
  ⟨(create_ADX_bit_depth_totality "lut" 4096 10 "ADX" ⟨[], []⟩).1 (Or.inl rfl),
   (create_ADX_bit_depth_totality "lut" 4096 12 "ADX" ⟨[], []⟩).2
     (by decide) (by decide)⟩

/-- C3: when the look entry contains `transformCTL` (and no
`transformCTLInverse`), `create_ACES_LMT` builds
`from_reference_transforms = [inverse-direction shaper 1D LUT, forward 3D
LUT]` from the entry's own metadata; but when the entry contains
`transformCTLInverse`, the inverse branch reads `odt_values` /
`odt_name` — names from another builder's scope that are undefined here —
so the call raises `NameError` instead of assembling
`to_reference_transforms` from the entry's own field. -/
theorem create_ACES_LMT_inverse_scope_bug (u : Util) (lmt_name : String)
    (v : XformMeta) (info : ShaperInfo) (cdir ldir : String) (r1 r3 : Int)
    (cleanup : Bool) (aliases : List String) (w : World) :
    (v.transformCTLInverse.isSome = true →
      create_ACES_LMT u lmt_name v info cdir ldir r1 r3 cleanup aliases w
        = .error "NameError: global name odt_values is not defined") ∧
    (∀ ctl, v.transformCTL = some ctl → v.transformCTLInverse = none →
      ∃ w', create_ACES_LMT u lmt_name v info cdir ldir r1 r3 cleanup aliases w
        = .ok ({ name := lmt_name,
                 description := "The ACES Look Transform: " ++ lmt_name,
                 aliases := aliases,
                 equality_group := "",
                 family := "Look",
                 is_data := false,
                 bit_depth := none,
                 allocation_type := none,
                 allocation_vars := [],
                 to_reference_transforms := [],
                 from_reference_transforms :=
                   [.lutFile (shaperStep u info cdir ldir r1 cleanup
                      info.params w).1 "linear" "inverse",
                    .lutFile (u.sanitize (info.name ++ "." ++ lmt_name ++
                      ".spi3d")) "tetrahedral" "forward"] }, w')) := by
  constructor
  · intro h
    obtain ⟨c, hc⟩ := Option.isSome_iff_exists.mp h
    unfold create_ACES_LMT
    rw [hc]
  · intro ctl hctl hinv
    unfold create_ACES_LMT
    rw [hctl, hinv]
    exact ⟨_, rfl⟩

theorem create_ACES_LMT_inverse_scope_bug_witness :
    create_ACES_LMT utilId "Look" ⟨"Look", none, some "inv.ctl", none, none,
        none, none⟩ lmt_shaper_data "ctl" "lut" 4096 64 true [] ⟨[], []⟩
      = .error "NameError: global name odt_values is not defined" ∧
    (∃ w', create_ACES_LMT utilId "Look" ⟨"Look", some "fwd.ctl", none, none,
        none, none, none⟩ lmt_shaper_data "ctl" "lut" 4096 64 true [] ⟨[], []⟩
      = .ok ({ name := "Look",
               description := "The ACES Look Transform: " ++ "Look",
               aliases := [],
               equality_group := "",
               family := "Look",
               is_data := false,
               bit_depth := none,
               allocation_type := none,
               allocation_vars := [],
               to_reference_transforms := [],
               from_reference_transforms :=
                 [.lutFile (shaperStep utilId lmt_shaper_data "ctl" "lut" 4096
                    true lmt_shaper_data.params ⟨[], []⟩).1 "linear" "inverse",
                  .lutFile (utilId.sanitize (lmt_shaper_data.name ++ "." ++
                    "Look" ++ ".spi3d")) "tetrahedral" "forward"] }, w')) :=
  ⟨(create_ACES_LMT_inverse_scope_bug utilId "Look" _ lmt_shaper_data "ctl"
      "lut" 4096 64 true [] ⟨[], []⟩).1 rfl,
   (create_ACES_LMT_inverse_scope_bug utilId "Look" _ lmt_shaper_data "ctl"
      "lut" 4096 64 true [] ⟨[], []⟩).2 "fwd.ctl" rfl rfl⟩

/-- C9: the `transformLUT` branch of `create_ACES_RRT_plus_ODT` calls
`shutil.copy`, but the module never imports `shutil`; for every
output-transform entry that supplies a pre-built `transformLUT` file the
builder therefore raises `NameError` instead of copying the file and
appending the transform chain. -/
theorem create_ACES_RRT_plus_ODT_transformLUT_crashes (u : Util)
    (odt_name : String) (v : XformMeta) (info : ShaperInfo)
    (cdir ldir : String) (r1 r3 : Int) (cleanup : Bool)
    (aliases : List String) (w : World)
    (hpre : v.transformUserNamePrefix.isSome = true)
    (hlut : v.transformLUT.isSome = true) :
    create_ACES_RRT_plus_ODT u odt_name v info cdir ldir r1 r3 cleanup
      aliases w = .error "NameError: global name shutil is not defined" := by
  obtain ⟨pre, hp⟩ := Option.isSome_iff_exists.mp hpre
  obtain ⟨l, hl⟩ := Option.isSome_iff_exists.mp hlut
  unfold create_ACES_RRT_plus_ODT
  rw [hp, hl]

theorem create_ACES_RRT_plus_ODT_transformLUT_crashes_witness :
    create_ACES_RRT_plus_ODT utilId "Rec709"
      ⟨"Rec709", none, none, some "pre.spi3d", none, none, some "Academy"⟩
      (log2_shaper_data "S") "ctl" "lut" 4096 64 true [] ⟨[], []⟩
      = .error "NameError: global name shutil is not defined" :=
  create_ACES_RRT_plus_ODT_transformLUT_crashes utilId "Rec709" _
    (log2_shaper_data "S") "ctl" "lut" 4096 64 true [] ⟨[], []⟩ rfl rfl

theorem setParam_of_not_has {p : Params} {k : String} {v : ℚ}
    (h : hasParam p k = false) : setParam p k v = p ++ [(k, v)] := by
  unfold setParam
  unfold hasParam at h
  rw [if_neg (by simp [h])]

theorem append_singleton_ne (p : Params) (x : String × ℚ) : p ++ [x] ≠ p := by
  intro h
  have := congrArg List.length h
  simp at this

/-- C4 counterexample: `create_ACEScc` invokes the renderer even though the
computed target path `lut/ACEScc_to_ACES.spi1d` already exists in the LUT
output directory, refuting the claim that every builder skips rendering
when the target file is present. -/
theorem create_ACEScc_renders_despite_existing_file :
    ((create_ACEScc utilId "ctl" "lut" 4096 true "ACEScc" 0 1 1
        ⟨["lut/ACEScc_to_ACES.spi1d"], []⟩).2).renders.length = 1 := rfl

/-- C4 (amended): the file-existence cache guards only the shaper 1D table
of the LMT / RRT+ODT builders (`shaperStep`): when the computed shaper path
already exists the step leaves the world untouched (no renderer call), and
otherwise it renders exactly once; `create_ACEScc`, by contrast, invokes
the renderer for its table unconditionally — one more render call on every
run, whether or not the target exists — so a second generation run over a
populated directory re-renders such tables.  For an ODT entry using a CTL
description, a run whose world already contains the shaper path performs
exactly one render call (the 3D table), never the shaper 1D render. -/
theorem lut_cache_guards_only_shaper_luts :
    (∀ (u : Util) (cdir ldir : String) (r1 : Int) (cl : Bool) (name : String)
        (minv maxv iscale : ℚ) (w : World),
      ((create_ACEScc u cdir ldir r1 cl name minv maxv iscale w).2).renders.length
        = w.renders.length + 1) ∧
    (∀ (u : Util) (info : ShaperInfo) (cdir ldir : String) (r1 : Int)
        (cl : Bool) (params : Params) (w : World),
      pathJoin ldir (info.name ++ "_to_aces.spi1d") ∈ w.fs →
        shaperStep u info cdir ldir r1 cl params w
          = (info.name ++ "_to_aces.spi1d", w)) ∧
    (∀ (u : Util) (info : ShaperInfo) (cdir ldir : String) (r1 : Int)
        (cl : Bool) (params : Params) (w : World),
      pathJoin ldir (info.name ++ "_to_aces.spi1d") ∉ w.fs →
        ((shaperStep u info cdir ldir r1 cl params w).2).renders.length
          = w.renders.length + 1) ∧
    (∀ (u : Util) (odt_name : String) (v : XformMeta) (info : ShaperInfo)
        (cdir ldir : String) (r1 r3 : Int) (cl : Bool) (al : List String)
        (w : World) (pre ctl : String),
      v.transformUserNamePrefix = some pre → v.transformLUT = none →
      v.transformLUTInverse = none → v.transformCTL = some ctl →
      v.transformCTLInverse = none →
      pathJoin ldir (info.name ++ "_to_aces.spi1d") ∈ w.fs →
      ∃ cs p c3, create_ACES_RRT_plus_ODT u odt_name v info cdir ldir r1 r3
          cl al w
        = .ok (cs, p, { fs := c3.path :: w.fs, renders := w.renders ++ [c3] })
        ∧ c3.dim = 3) := by
  refine ⟨fun u cdir ldir r1 cl name minv maxv iscale w => ?_,
    fun u info cdir ldir r1 cl params w h => ?_,
    fun u info cdir ldir r1 cl params w h => ?_,
    fun u odt_name v info cdir ldir r1 r3 cl al w pre ctl hpre hlut hluti
      hctl hctli hmem => ?_⟩
  · simp [create_ACEScc, render]
  · unfold shaperStep
    rw [if_pos h]
  · unfold shaperStep
    rw [if_neg h]
    simp [render]
  · unfold create_ACES_RRT_plus_ODT
    rw [hpre, hlut, hluti, hctl, hctli]
    simp only [shaperStep]
    rw [if_pos hmem]
    exact ⟨_, _, _, rfl, rfl⟩

theorem lut_cache_guards_only_shaper_luts_witness :
    ((create_ACEScc utilId "ctl" "lut" 4096 true "ACEScc" 0 1 1
        ⟨["lut/ACEScc_to_ACES.spi1d"], []⟩).2).renders.length = 0 + 1 ∧
    shaperStep utilId (log2_shaper_data "S") "ctl" "lut" 4096 true
        (log2_shaper_data "S").params ⟨["lut/S_to_aces.spi1d"], []⟩
      = ("S" ++ "_to_aces.spi1d", ⟨["lut/S_to_aces.spi1d"], []⟩) ∧
    ((shaperStep utilId (log2_shaper_data "S") "ctl" "lut" 4096 true
        (log2_shaper_data "S").params ⟨[], []⟩).2).renders.length = 0 + 1 ∧
    (∃ cs p c3, create_ACES_RRT_plus_ODT utilId "Rec709 - Legal"
        ⟨"Rec709", some "fwd.ctl", none, none, none, some 1, some "Academy"⟩
        (log2_shaper_data "S") "ctl" "lut" 4096 64 true []
        ⟨["lut/S_to_aces.spi1d"], []⟩
      = .ok (cs, p, { fs := c3.path :: ["lut/S_to_aces.spi1d"],
                      renders := [] ++ [c3] }) ∧ c3.dim = 3) :=
  ⟨lut_cache_guards_only_shaper_luts.1 utilId "ctl" "lut" 4096 true "ACEScc"
     0 1 1 ⟨["lut/ACEScc_to_ACES.spi1d"], []⟩,
   lut_cache_guards_only_shaper_luts.2.1 utilId (log2_shaper_data "S") "ctl"
     "lut" 4096 true (log2_shaper_data "S").params
     ⟨["lut/S_to_aces.spi1d"], []⟩ (by simp [pathJoin, log2_shaper_data]),
   lut_cache_guards_only_shaper_luts.2.2.1 utilId (log2_shaper_data "S")
     "ctl" "lut" 4096 true (log2_shaper_data "S").params ⟨[], []⟩
     (by simp),
   lut_cache_guards_only_shaper_luts.2.2.2 utilId "Rec709 - Legal" _
     (log2_shaper_data "S") "ctl" "lut" 4096 64 true []
     ⟨["lut/S_to_aces.spi1d"], []⟩ "Academy" "fwd.ctl" rfl rfl rfl rfl rfl
     (by simp [pathJoin, log2_shaper_data])⟩

/-- C8 counterexample: a single `create_ACES_RRT_plus_ODT` call mutates the
parameter mapping of the shared shaper bundle: with the `log2_shaper_data`
bundle (no `legalRange` binding) and an entry injecting `legalRange = 1`,
the parameter dictionary after the call has gained a `legalRange` binding —
it is not the mapping the bundle started with, so other users of the bundle
observe a changed mapping. -/
theorem odt_build_mutates_shared_params :
    (create_ACES_RRT_plus_ODT utilId "Rec709 - Legal"
        ⟨"Rec709", some "fwd.ctl", none, none, none, some 1, some "Academy"⟩
        (log2_shaper_data "S") "ctl" "lut" 4096 64 true [] ⟨[], []⟩).map
      (fun r => r.2.1)
      = .ok ((log2_shaper_data "S").params ++ [("legalRange", ((1 : Int) : ℚ))]) ∧
    (log2_shaper_data "S").params ++ [("legalRange", ((1 : Int) : ℚ))]
      ≠ (log2_shaper_data "S").params := by
  exact ⟨rfl, append_singleton_ne _ _⟩

/-- C8 (amended): the Shaper Bundle's parameter mapping is shared by
reference and mutated in place rather than copied: every
`create_ACES_RRT_plus_ODT` call that returns has set the mapping's
`legalRange` binding to the entry's value (0 when the entry carries none),
so when the bundle's mapping had no `legalRange` binding the mapping after
the call differs from the one before.  (`odtStep` stores the returned,
mutated mapping back into the bundle it hands to the next builder call.) -/
theorem odt_shaper_params_mutation_law (u : Util) (odt_name : String)
    (v : XformMeta) (info : ShaperInfo) (cdir ldir : String) (r1 r3 : Int)
    (cl : Bool) (al : List String) (w : World) :
    ∀ cs p w', create_ACES_RRT_plus_ODT u odt_name v info cdir ldir r1 r3
        cl al w = .ok (cs, p, w') →
      p = setParam info.params "legalRange" (((v.legalRange).getD 0 : Int) : ℚ) ∧
      (hasParam info.params "legalRange" = false → p ≠ info.params) := by
  intro cs p w' h
  rw [create_ACES_RRT_plus_ODT] at h
  rcases hpre : v.transformUserNamePrefix with _ | pre <;> rw [hpre] at h
  · cases h
  · rcases hlut : v.transformLUT with _ | lutf <;> rw [hlut] at h
    · rcases hluti : v.transformLUTInverse with _ | lutif <;> rw [hluti] at h
      · have hp : p = setParam info.params "legalRange"
            (((v.legalRange).getD 0 : Int) : ℚ) := by
          rcases hctl : v.transformCTL with _ | ctl <;> rw [hctl] at h <;>
            rcases hctli : v.transformCTLInverse with _ | ctli <;>
              rw [hctli] at h <;>
            exact (congrArg (fun t : ColorSpace × Params × World => t.2.1)
              (Except.ok.inj h)).symm
        refine ⟨hp, fun hhas => ?_⟩
        rw [hp, setParam_of_not_has hhas]
        exact append_singleton_ne _ _
      · rcases hctl : v.transformCTL with _ | ctl <;> rw [hctl] at h <;> cases h
    · cases h

theorem odt_shaper_params_mutation_law_witness :
    ∃ cs p w',
      create_ACES_RRT_plus_ODT utilId "Rec709 - Legal"
        ⟨"Rec709", some "fwd.ctl", none, none, none, some 1, some "Academy"⟩
        (log2_shaper_data "S") "ctl" "lut" 4096 64 true [] ⟨[], []⟩
        = .ok (cs, p, w') ∧
      p = setParam (log2_shaper_data "S").params "legalRange"
          (((some (1 : Int)).getD 0 : Int) : ℚ) ∧
      p ≠ (log2_shaper_data "S").params := by
  refine ⟨_, _, _, rfl, ?_⟩
  have h := odt_shaper_params_mutation_law utilId "Rec709 - Legal"
    ⟨"Rec709", some "fwd.ctl", none, none, none, some 1, some "Academy"⟩
    (log2_shaper_data "S") "ctl" "lut" 4096 64 true [] ⟨[], []⟩ _ _ _ rfl
  exact ⟨h.1, h.2 rfl⟩

/-- Erases the path of a `lutFile` step (the paths embed the colorspace /
shaper names). -/
def erasePath : OCIOTransform → OCIOTransform
  | .lutFile _ interpolation direction => .lutFile "" interpolation direction
  | t => t

/-- Erases the name-derived strings of a colorspace — its name,
description, aliases, and the paths of its `lutFile` steps; everything
that remains must agree between a `" - Legal"` / `" - Full"` pair. -/
def eraseNameDependent (cs : ColorSpace) : ColorSpace :=
  { cs with
      name := "", description := "", aliases := [],
      to_reference_transforms := cs.to_reference_transforms.map erasePath,
      from_reference_transforms := cs.from_reference_transforms.map erasePath }

/-- A minimal colorspace value used as the linear/log display view when the
assemblers are evaluated at concrete inputs. -/
def sampleView : ColorSpace :=
  ⟨"ACES2065-1", "", [], "", "ACES", false, none, none, [], [], []⟩

/-- C2 counterexample: a registry whose single entry is in the dual-range
allowlist but supplies a pre-built `transformLUT` makes `create_odts` abort
with `NameError` (`shutil` is never imported), producing *no* colorspaces
for the entry — not the two the claim requires for every allowlist entry. -/
theorem create_odts_crashes_on_transformLUT_entry :
    create_odts utilId "ctl" "lut" 4096 64
      [("Academy.Rec709_100nits_dim.a1.0.0",
        ⟨"Rec709", none, none, some "pre.spi3d", none, none, some "Academy"⟩)]
      "S" true sampleView sampleView ⟨[], []⟩
      = .error "NameError: global name shutil is not defined" := rfl
/-- Characterization of one `create_odts` entry step for a well-formed
entry (prefix present, no pre-built-LUT fields): the allowlist decides
between appending the `" - Legal"` / `" - Full"` pair (built with
`legalRange` 1 and 0 respectively, agreeing after `eraseNameDependent`)
and appending one unsuffixed colorspace. -/
theorem odtStep_entry_char (u : Util) (cdir ldir : String)
    (r1 r3 : Int) (cl : Bool) (lin logd : ColorSpace) (k : String)
    (v : XformMeta) (st : OdtState) (pre : String)
    (hpre : v.transformUserNamePrefix = some pre)
    (hlut : v.transformLUT = none) (hluti : v.transformLUTInverse = none) :
    (k ∈ dualRangeODTs →
      ∃ st' csL pL w1 csF pF w2,
        odtStep u cdir ldir r1 r3 cl lin logd (k, v) st = .ok st' ∧
        create_ACES_RRT_plus_ODT u (v.transformUserName ++ " - Legal")
          { v with legalRange := some 1 } st.shaper cdir ldir r1 r3 cl
          ["out_" ++ u.compact (v.transformUserName ++ " - Legal")] st.world
          = .ok (csL, pL, w1) ∧
        create_ACES_RRT_plus_ODT u (v.transformUserName ++ " - Full")
          { v with legalRange := some 0 } { st.shaper with params := pL }
          cdir ldir r1 r3 cl
          ["out_" ++ u.compact (v.transformUserName ++ " - Full")] w1
          = .ok (csF, pF, w2) ∧
        st'.colorspaces = st.colorspaces ++ [csL, csF] ∧
        csL.name = v.transformUserName ++ " - Legal" ∧
        csF.name = v.transformUserName ++ " - Full" ∧
        csL.aliases = ["out_" ++ u.compact (v.transformUserName ++ " - Legal")] ∧
        csF.aliases = ["out_" ++ u.compact (v.transformUserName ++ " - Full")] ∧
        eraseNameDependent csL = eraseNameDependent csF) ∧
    (k ∉ dualRangeODTs →
      ∃ st' cs p1 w1,
        odtStep u cdir ldir r1 r3 cl lin logd (k, v) st = .ok st' ∧
        create_ACES_RRT_plus_ODT u v.transformUserName
          { v with legalRange := some 1 } st.shaper cdir ldir r1 r3 cl
          ["out_" ++ u.compact v.transformUserName] st.world = .ok (cs, p1, w1) ∧
        st'.colorspaces = st.colorspaces ++ [cs] ∧
        cs.name = v.transformUserName ∧
        cs.aliases = ["out_" ++ u.compact v.transformUserName]) := by
  obtain ⟨un, ctl0, ctli0, lut0, luti0, lr0, pre0⟩ := v
  obtain rfl : pre0 = some pre := hpre
  obtain rfl : lut0 = none := hlut
  obtain rfl : luti0 = none := hluti
  constructor
  · intro hdual
    have hstep : odtStep u cdir ldir r1 r3 cl lin logd
        (k, ⟨un, ctl0, ctli0, none, none, lr0, some pre⟩) st
        = odtStepDual u cdir ldir r1 r3 cl lin logd
            ⟨un, ctl0, ctli0, none, none, lr0, some pre⟩ st := by
      unfold odtStep
      rw [if_pos hdual]
    rcases ctl0 with _ | c <;> rcases ctli0 with _ | ci <;>
      exact ⟨_, _, _, _, _, _, _, hstep.trans rfl, rfl, rfl,
        List.append_assoc _ _ _, rfl, rfl, rfl, rfl, rfl⟩
  · intro hdual
    have hstep : odtStep u cdir ldir r1 r3 cl lin logd
        (k, ⟨un, ctl0, ctli0, none, none, lr0, some pre⟩) st
        = odtStepSingle u cdir ldir r1 r3 cl lin logd
            ⟨un, ctl0, ctli0, none, none, lr0, some pre⟩ st := by
      unfold odtStep
      rw [if_neg hdual]
    rcases ctl0 with _ | c <;> rcases ctli0 with _ | ci <;>
      exact ⟨_, _, _, _, hstep.trans rfl, rfl, rfl, rfl, rfl⟩

/-- A registry entry the ODT builder can process without raising:
`transformUserNamePrefix` present (required by the interface) and neither
pre-built-LUT field (their branches crash on the missing `shutil`
import). -/
def odtEntryWF (e : String × XformMeta) : Prop :=
  e.2.transformUserNamePrefix.isSome = true ∧
  e.2.transformLUT = none ∧ e.2.transformLUTInverse = none

instance : DecidablePred odtEntryWF := fun e => by
  unfold odtEntryWF; infer_instance

/-- Number of colorspaces an entry contributes: two for allowlist
identifiers, one otherwise. -/
def odtEntryCount (e : String × XformMeta) : Nat :=
  if e.1 ∈ dualRangeODTs then 2 else 1

theorem odtLoop_colorspaces_count (u : Util) (cdir ldir : String)
    (r1 r3 : Int) (cl : Bool) (lin logd : ColorSpace) :
    ∀ (l : List (String × XformMeta)) (st : OdtState),
      (∀ e ∈ l, odtEntryWF e) →
      ∃ st', odtLoop u cdir ldir r1 r3 cl lin logd l st = .ok st' ∧
        st'.colorspaces.length
          = st.colorspaces.length + (l.map odtEntryCount).sum := by
  intro l
  induction l with
  | nil =>
    intro st _
    exact ⟨st, rfl, by simp⟩
  | cons e rest ih =>
    intro st hwf
    obtain ⟨hpre, hlut, hluti⟩ := hwf e (List.mem_cons_self e rest)
    obtain ⟨pre, hpre2⟩ := Option.isSome_iff_exists.mp hpre
    have hchar := odtStep_entry_char u cdir ldir r1 r3 cl lin logd e.1 e.2 st
      pre hpre2 hlut hluti
    by_cases hdual : e.1 ∈ dualRangeODTs
    · obtain ⟨st', csL, pL, w1, csF, pF, w2, hstep, _, _, hcss, _⟩ :=
        hchar.1 hdual
      obtain ⟨st'', hloop, hlen⟩ := ih st' (fun x hx =>
        hwf x (List.mem_cons_of_mem e hx))
      refine ⟨st'', ?_, ?_⟩
      · show (match odtStep u cdir ldir r1 r3 cl lin logd (e.1, e.2) st with
          | Except.error err => Except.error err
          | Except.ok st' => odtLoop u cdir ldir r1 r3 cl lin logd rest st')
            = Except.ok st''
        rw [hstep]
        exact hloop
      · rw [hlen, hcss]
        simp [odtEntryCount, hdual]
        omega
    · obtain ⟨st', cs, p1, w1, hstep, _, hcss, _⟩ := hchar.2 hdual
      obtain ⟨st'', hloop, hlen⟩ := ih st' (fun x hx =>
        hwf x (List.mem_cons_of_mem e hx))
      refine ⟨st'', ?_, ?_⟩
      · show (match odtStep u cdir ldir r1 r3 cl lin logd (e.1, e.2) st with
          | Except.error err => Except.error err
          | Except.ok st' => odtLoop u cdir ldir r1 r3 cl lin logd rest st')
            = Except.ok st''
        rw [hstep]
        exact hloop
      · rw [hlen, hcss]
        simp [odtEntryCount, hdual]
        omega

/-- C2 (amended): for registries whose entries carry
`transformUserNamePrefix` and do not use the pre-built-LUT fields
(`transformLUT` / `transformLUTInverse`, whose branches crash on the
missing `shutil` import), the `create_odts` per-entry step produces
exactly two colorspaces when the identifier is in the fixed allowlist —
the `" - Legal"` variant built with `legalRange = 1` injected and the
`" - Full"` variant built with `legalRange = 0` injected, which agree
after erasing the name-derived strings (name, description, alias, LUT
paths) — and exactly one unsuffixed colorspace otherwise; consequently a
whole `create_odts` run succeeds and emits `2 + Σ (2 or 1 per entry)`
colorspaces (the two leading ones being the shaper and its AP1 variant). -/
theorem odt_entry_range_variants :
    (∀ (u : Util) (cdir ldir : String) (r1 r3 : Int) (cl : Bool)
        (lin logd : ColorSpace) (k : String) (v : XformMeta) (st : OdtState)
        (pre : String), v.transformUserNamePrefix = some pre →
      v.transformLUT = none → v.transformLUTInverse = none →
      ((k ∈ dualRangeODTs →
        ∃ st' csL pL w1 csF pF w2,
          odtStep u cdir ldir r1 r3 cl lin logd (k, v) st = .ok st' ∧
          create_ACES_RRT_plus_ODT u (v.transformUserName ++ " - Legal")
            { v with legalRange := some 1 } st.shaper cdir ldir r1 r3 cl
            ["out_" ++ u.compact (v.transformUserName ++ " - Legal")] st.world
            = .ok (csL, pL, w1) ∧
          create_ACES_RRT_plus_ODT u (v.transformUserName ++ " - Full")
            { v with legalRange := some 0 } { st.shaper with params := pL }
            cdir ldir r1 r3 cl
            ["out_" ++ u.compact (v.transformUserName ++ " - Full")] w1
            = .ok (csF, pF, w2) ∧
          st'.colorspaces = st.colorspaces ++ [csL, csF] ∧
          csL.name = v.transformUserName ++ " - Legal" ∧
          csF.name = v.transformUserName ++ " - Full" ∧
          csL.aliases = ["out_" ++ u.compact (v.transformUserName ++ " - Legal")] ∧
          csF.aliases = ["out_" ++ u.compact (v.transformUserName ++ " - Full")] ∧
          eraseNameDependent csL = eraseNameDependent csF) ∧
       (k ∉ dualRangeODTs →
        ∃ st' cs p1 w1,
          odtStep u cdir ldir r1 r3 cl lin logd (k, v) st = .ok st' ∧
          create_ACES_RRT_plus_ODT u v.transformUserName
            { v with legalRange := some 1 } st.shaper cdir ldir r1 r3 cl
            ["out_" ++ u.compact v.transformUserName] st.world
            = .ok (cs, p1, w1) ∧
          st'.colorspaces = st.colorspaces ++ [cs] ∧
          cs.name = v.transformUserName ∧
          cs.aliases = ["out_" ++ u.compact v.transformUserName]))) ∧
    (∀ (u : Util) (cdir ldir : String) (r1 r3 : Int)
        (l : List (String × XformMeta)) (sn : String) (cl : Bool)
        (lin logd : ColorSpace) (w : World),
      (∀ e ∈ l, odtEntryWF e) →
      ∃ st', create_odts u cdir ldir r1 r3 l sn cl lin logd w = .ok st' ∧
        st'.colorspaces.length = 2 + ((pySorted l).map odtEntryCount).sum) := by
  constructor
  · intro u cdir ldir r1 r3 cl lin logd k v st pre hpre hlut hluti
    exact odtStep_entry_char u cdir ldir r1 r3 cl lin logd k v st pre
      hpre hlut hluti
  · intro u cdir ldir r1 r3 l sn cl lin logd w hwf
    have hwf2 : ∀ e ∈ pySorted l, odtEntryWF e := fun e he =>
      hwf e ((List.perm_insertionSort pyEntryLe l).subset he)
    obtain ⟨st', hloop, hlen⟩ := odtLoop_colorspaces_count u cdir ldir r1 r3
      cl lin logd (pySorted l) _ hwf2
    exact ⟨st', hloop, by rw [hlen]; rfl⟩

theorem odt_entry_range_variants_witness :
    ("Academy.Rec709_100nits_dim.a1.0.0" ∈ dualRangeODTs →
      ∃ st' csL pL w1 csF pF w2,
        odtStep utilId "ctl" "lut" 4096 64 true sampleView sampleView
          ("Academy.Rec709_100nits_dim.a1.0.0",
            ⟨"Rec709", some "fwd.ctl", none, none, none, none, some "Academy"⟩)
          ⟨[], [], log2_shaper_data "S", ⟨[], []⟩⟩ = .ok st' ∧
        create_ACES_RRT_plus_ODT utilId ("Rec709" ++ " - Legal")
          { transformUserName := "Rec709", transformCTL := some "fwd.ctl",
            transformCTLInverse := none, transformLUT := none,
            transformLUTInverse := none, legalRange := some 1,
            transformUserNamePrefix := some "Academy" }
          (log2_shaper_data "S") "ctl" "lut" 4096 64 true
          ["out_" ++ utilId.compact ("Rec709" ++ " - Legal")] ⟨[], []⟩
          = .ok (csL, pL, w1) ∧
        create_ACES_RRT_plus_ODT utilId ("Rec709" ++ " - Full")
          { transformUserName := "Rec709", transformCTL := some "fwd.ctl",
            transformCTLInverse := none, transformLUT := none,
            transformLUTInverse := none, legalRange := some 0,
            transformUserNamePrefix := some "Academy" }
          { log2_shaper_data "S" with params := pL } "ctl" "lut" 4096 64 true
          ["out_" ++ utilId.compact ("Rec709" ++ " - Full")] w1
          = .ok (csF, pF, w2) ∧
        st'.colorspaces = [] ++ [csL, csF] ∧
        csL.name = "Rec709" ++ " - Legal" ∧
        csF.name = "Rec709" ++ " - Full" ∧
        csL.aliases = ["out_" ++ utilId.compact ("Rec709" ++ " - Legal")] ∧
        csF.aliases = ["out_" ++ utilId.compact ("Rec709" ++ " - Full")] ∧
        eraseNameDependent csL = eraseNameDependent csF) ∧
    (∃ st', create_odts utilId "ctl" "lut" 4096 64
        [("Academy.Rec709_100nits_dim.a1.0.0",
          ⟨"Rec709", some "fwd.ctl", none, none, none, none, some "Academy"⟩),
         ("Academy.P3DCI_48nits.a1.0.0",
          ⟨"P3", some "p3.ctl", none, none, none, none, some "Academy"⟩)]
        "S" true sampleView sampleView ⟨[], []⟩ = .ok st' ∧
      st'.colorspaces.length
        = 2 + ((pySorted
            [("Academy.Rec709_100nits_dim.a1.0.0",
              ⟨"Rec709", some "fwd.ctl", none, none, none, none,
                some "Academy"⟩),
             ("Academy.P3DCI_48nits.a1.0.0",
              ⟨"P3", some "p3.ctl", none, none, none, none,
                some "Academy"⟩)]).map odtEntryCount).sum) :=
  ⟨fun _ => (odt_entry_range_variants.1 utilId "ctl" "lut" 4096 64 true
      sampleView sampleView "Academy.Rec709_100nits_dim.a1.0.0"
      ⟨"Rec709", some "fwd.ctl", none, none, none, none, some "Academy"⟩
      ⟨[], [], log2_shaper_data "S", ⟨[], []⟩⟩ "Academy" rfl rfl rfl).1
      (by simp [dualRangeODTs]),
   odt_entry_range_variants.2 utilId "ctl" "lut" 4096 64 _ "S" true
     sampleView sampleView ⟨[], []⟩ (by
       intro e he
       fin_cases he <;> exact ⟨rfl, rfl, rfl⟩)⟩

/-- The iteration order the specification claims: sorted on the metadata's
display-name field (`transformUserName`).  This definition follows the
spec's words, for comparison with the order the source actually uses. -/
def specUserNameLe (a b : String × XformMeta) : Prop :=
  strCmp a.2.transformUserName b.2.transformUserName ≠ .gt

instance : DecidableRel specUserNameLe := fun a b => by
  unfold specUserNameLe; infer_instance

/-- Stable sort of a registry by `transformUserName`, as the spec
describes the iteration order. -/
def sortedByUserName (l : List (String × XformMeta)) :
    List (String × XformMeta) :=
  List.insertionSort specUserNameLe l

/-- The two-look registry refuting the claimed sort key: the entry whose
display name is "B" carries a *smaller* metadata dictionary (one key) than
the entry named "A" (two keys), and Python 2 compares dictionaries by size
first. -/
def lmtRegistryCEx : List (String × XformMeta) :=
  [("k1", ⟨"B", none, none, none, none, none, none⟩),
   ("k2", ⟨"A", some "lmt.ctl", none, none, none, none, none⟩)]

/-- C1 counterexample: on `lmtRegistryCEx`, `create_lmts` generates the
looks in the order B, A (the sort key is the whole metadata dictionary, and
the one-key dictionary sorts first), while sorting by the display-name
field `transformUserName`, as the claim states, would give A, B. -/
theorem create_lmts_not_sorted_by_userName :
    (create_lmts utilId "ctl" "lut" 4096 64 lmtRegistryCEx true ⟨[], []⟩).map
      (fun p => p.1.map ColorSpace.name) = .ok ["LMT Shaper", "B", "A"] ∧
    (sortedByUserName lmtRegistryCEx).map
      (fun e => e.2.transformUserName) = ["A", "B"] ∧
    (["LMT Shaper", "B", "A"] : List String) ≠ ["LMT Shaper", "A", "B"] :=
  ⟨rfl, rfl, by decide⟩

/-- C1 (amended): `create_lmts` and `create_odts` iterate registry entries
in a stable order sorted on the *entire metadata value* under Python 2
ordering (`pyEntryLe`, dictionary size first, then the smallest differing
key), not on `transformUserName` and not on the identifier key.  Two
registries equal as mappings (permutations as association lists) yield the
same `create_lmts` result unconditionally (the look loop never reads the
identifier), and the same `create_odts` result provided no two entries
carry equal metadata (the output loop reads the identifier, and entries
with identical metadata tie under the sort, leaving their relative order to
the registry's iteration order). -/
theorem registry_sort_key_and_determinism :
    (∀ l : List (String × XformMeta), (pySorted l).Pairwise pyEntryLe) ∧
    (∀ (u : Util) (cdir ldir : String) (r1 r3 : Int) (cl : Bool) (w : World)
        (l₁ l₂ : List (String × XformMeta)), l₁.Perm l₂ →
      create_lmts u cdir ldir r1 r3 l₁ cl w
        = create_lmts u cdir ldir r1 r3 l₂ cl w) ∧
    (∀ (u : Util) (cdir ldir : String) (r1 r3 : Int) (sn : String)
        (cl : Bool) (lin logd : ColorSpace) (w : World)
        (l₁ l₂ : List (String × XformMeta)), l₁.Perm l₂ →
      (∀ a ∈ l₁, ∀ b ∈ l₁, a.2 = b.2 → a = b) →
      create_odts u cdir ldir r1 r3 l₁ sn cl lin logd w
        = create_odts u cdir ldir r1 r3 l₂ sn cl lin logd w) := by
  refine ⟨fun l => List.sorted_insertionSort pyEntryLe l,
    fun u cdir ldir r1 r3 cl w l₁ l₂ hp => ?_,
    fun u cdir ldir r1 r3 sn cl lin logd w l₁ l₂ hp hd => ?_⟩
  · simp only [create_lmts]
    rw [pySorted_map_snd_eq_of_perm hp]
  · simp only [create_odts]
    rw [pySorted_eq_of_perm hp hd]

theorem registry_sort_key_and_determinism_witness :
    (pySorted lmtRegistryCEx).Pairwise pyEntryLe ∧
    create_lmts utilId "ctl" "lut" 4096 64 lmtRegistryCEx true ⟨[], []⟩
      = create_lmts utilId "ctl" "lut" 4096 64 lmtRegistryCEx.reverse true
          ⟨[], []⟩ ∧
    create_odts utilId "ctl" "lut" 4096 64
        [("Academy.Rec709_100nits_dim.a1.0.0",
          ⟨"Rec709", some "fwd.ctl", none, none, none, none, some "Academy"⟩),
         ("Academy.P3DCI_48nits.a1.0.0",
          ⟨"P3", some "p3.ctl", none, none, none, none, some "Academy"⟩)]
        "S" true sampleView sampleView ⟨[], []⟩
      = create_odts utilId "ctl" "lut" 4096 64
          [("Academy.P3DCI_48nits.a1.0.0",
            ⟨"P3", some "p3.ctl", none, none, none, none, some "Academy"⟩),
           ("Academy.Rec709_100nits_dim.a1.0.0",
            ⟨"Rec709", some "fwd.ctl", none, none, none, none,
              some "Academy"⟩)]
          "S" true sampleView sampleView ⟨[], []⟩ :=
  ⟨registry_sort_key_and_determinism.1 lmtRegistryCEx,
   registry_sort_key_and_determinism.2.1 utilId "ctl" "lut" 4096 64 true
     ⟨[], []⟩ lmtRegistryCEx lmtRegistryCEx.reverse
     (by exact List.Perm.swap _ _ _),
   registry_sort_key_and_determinism.2.2 utilId "ctl" "lut" 4096 64 "S" true
     sampleView sampleView ⟨[], []⟩ _ _
     (by exact List.Perm.swap _ _ _) (by decide)⟩

/-- Two-sided Taylor bound for `log (1 - x)` on `[0, 1)`, from the series
estimate `Real.abs_log_sub_add_sum_range_le`. -/
theorem log_one_sub_bounds {x : ℝ} (hx0 : 0 ≤ x) (hx1 : |x| < 1) (n : ℕ) :
    Real.log (1 - x) ≤ -(∑ i ∈ Finset.range n, x ^ (i + 1) / (i + 1))
        + x ^ (n + 1) / (1 - x) ∧
    -(∑ i ∈ Finset.range n, x ^ (i + 1) / (i + 1)) - x ^ (n + 1) / (1 - x)
        ≤ Real.log (1 - x) := by
  have h := Real.abs_log_sub_add_sum_range_le hx1 n
  rw [abs_of_nonneg hx0] at h
  rw [abs_le] at h
  constructor <;> linarith [h.1, h.2]

theorem log43_lb : (0.28768207245 : ℝ) ≤ Real.log (4 / 3) := by
  have h := (log_one_sub_bounds (x := 1/4) (by norm_num) (by rw [abs_of_nonneg] <;> norm_num) 20).1
  rw [show (1 : ℝ) - 1/4 = (4/3)⁻¹ by norm_num, Real.log_inv] at h
  norm_num [Finset.sum_range_succ] at h
  linarith

theorem log43_ub : Real.log (4 / 3) ≤ (0.28768207246 : ℝ) := by
  have h := (log_one_sub_bounds (x := 1/4) (by norm_num) (by rw [abs_of_nonneg] <;> norm_num) 20).2
  rw [show (1 : ℝ) - 1/4 = (4/3)⁻¹ by norm_num, Real.log_inv] at h
  norm_num [Finset.sum_range_succ] at h
  linarith

theorem log85_lb : (0.47000362924 : ℝ) ≤ Real.log (8 / 5) := by
  have h := (log_one_sub_bounds (x := 3/8) (by norm_num) (by rw [abs_of_nonneg] <;> norm_num) 28).1
  rw [show (1 : ℝ) - 3/8 = (8/5)⁻¹ by norm_num, Real.log_inv] at h
  norm_num [Finset.sum_range_succ] at h
  linarith

theorem log85_ub : Real.log (8 / 5) ≤ (0.47000362925 : ℝ) := by
  have h := (log_one_sub_bounds (x := 3/8) (by norm_num) (by rw [abs_of_nonneg] <;> norm_num) 28).2
  rw [show (1 : ℝ) - 3/8 = (8/5)⁻¹ by norm_num, Real.log_inv] at h
  norm_num [Finset.sum_range_succ] at h
  linarith

theorem log98_lb : (0.11778303565 : ℝ) ≤ Real.log (9 / 8) := by
  have h := (log_one_sub_bounds (x := 1/9) (by norm_num) (by rw [abs_of_nonneg] <;> norm_num) 13).1
  rw [show (1 : ℝ) - 1/9 = (9/8)⁻¹ by norm_num, Real.log_inv] at h
  norm_num [Finset.sum_range_succ] at h
  linarith

theorem log98_ub : Real.log (9 / 8) ≤ (0.11778303566 : ℝ) := by
  have h := (log_one_sub_bounds (x := 1/9) (by norm_num) (by rw [abs_of_nonneg] <;> norm_num) 13).2
  rw [show (1 : ℝ) - 1/9 = (9/8)⁻¹ by norm_num, Real.log_inv] at h
  norm_num [Finset.sum_range_succ] at h
  linarith

/-- C6: the two branches of the CID-to-RLE piecewise function agree at the
boundary `x = 0.6` within the declared numeric tolerance: interpolating the
fixed 11-point table at 0.6 differs from the closed-form affine extension
`(100/55) * 0.6 - REF_PT`, with
`REF_PT = (7120 - 1520)/8000 * (100/55) - log10(0.18)`, by less than
`10⁻⁹` (the true gap is below `10⁻¹⁵`; the branch assignment at the
boundary introduces no discontinuity beyond floating rounding). -/
theorem cid_to_rle_branches_agree_at_boundary :
    |((interpolate_1D 0.6 : ℚ) : ℝ) - ((100 / 55) * 0.6 - REF_PT)|
      < 1 / 10 ^ 9 := by
  have hinterp : interpolate_1D 0.6 = -926545676714876 / 10 ^ 15 := by
    norm_num [interpolate_1D, LUT_1D_xp, LUT_1D_fp, interpPoints]
  have hD : (0 : ℝ) < Real.log 10 := Real.log_pos (by norm_num)
  have h950 : Real.log (9 / 50 : ℝ)
      = 2 * Real.log (8 / 5) - 8 * Real.log (4 / 3) - 3 * Real.log (9 / 8) := by
    rw [show (9 / 50 : ℝ) = (8 / 5) ^ 2 / (4 / 3) ^ 8 / (9 / 8) ^ 3 by norm_num,
      Real.log_div (by norm_num) (by norm_num),
      Real.log_div (by norm_num) (by norm_num),
      Real.log_pow, Real.log_pow, Real.log_pow]
    push_cast
    ring
  have h10 : Real.log (10 : ℝ)
      = 8 * Real.log (4 / 3) + 4 * Real.log (9 / 8) - Real.log (8 / 5) := by
    rw [show (10 : ℝ) = (4 / 3) ^ 8 * (9 / 8) ^ 4 / (8 / 5) by norm_num,
      Real.log_div (by norm_num) (by norm_num),
      Real.log_mul (by norm_num) (by norm_num),
      Real.log_pow, Real.log_pow]
    push_cast
    ring
  have hNl : (-1.71479842818 : ℝ) ≤ Real.log (9 / 50) := by
    rw [h950]
    linarith [log43_ub, log85_lb, log98_ub]
  have hNu : Real.log (9 / 50) ≤ (-1.71479842805 : ℝ) := by
    rw [h950]
    linarith [log43_lb, log85_ub, log98_lb]
  have hDl : (2.30258509295 : ℝ) ≤ Real.log 10 := by
    rw [h10]
    linarith [log43_lb, log85_ub, log98_lb]
  have hDu : Real.log 10 ≤ (2.30258509308 : ℝ) := by
    rw [h10]
    linarith [log43_ub, log85_lb, log98_ub]
  have hREF : REF_PT = 14 / 11 - Real.log (9 / 50) / Real.log 10 := by
    unfold REF_PT Real.logb
    norm_num
  have hfrac_lb : ((-1.71479842818 : ℝ) / 2.30258509295)
      ≤ Real.log (9 / 50) / Real.log 10 := by
    rw [div_le_div_iff (by norm_num) hD]
    linarith [hNl, hDl]
  have hfrac_ub : Real.log (9 / 50) / Real.log 10
      ≤ ((-1.71479842805 : ℝ) / 2.30258509308) := by
    rw [div_le_div_iff hD (by norm_num)]
    linarith [hNu, hDu]
  rw [hinterp, hREF, abs_lt]
  push_cast
  constructor <;> linarith [hfrac_lb, hfrac_ub]
